import Mathlib

/-!
Verification of the notebook-grading core of the `educational_feedback_generator`
repository: a shallow embedding in Lean 4 of the Completion Parser
(`src/ai_grading/llm_grader.py`), the notebook cell classifier and output
extractor (`notebook_parser.py`), the rubric store (`src/reports/rubric_manager.py`)
and the multi-run aggregator (`multi_run_grader.py`), together with theorems
settling the specification claims about them.

Python numbers (ints and the floats produced by `json.loads` / `statistics`)
are modelled as exact rationals.  To keep every definition executable by the
kernel (so concrete runs can be checked by `rfl`/`decide`), rationals are
represented unnormalised as a numerator and a positive denominator
(`den1 + 1`); bridge lemmas relate every operation to `ℚ`.
-/


/-- An exact rational `num / (den1 + 1)` with kernel-computable arithmetic.
Models a Python number (int or float) in the grading pipeline; the float
reading is the exact-decimal idealisation of IEEE values, which coincides
with Python on every comparison appearing in the claims. -/

structure PyQ where
  num : Int
  den1 : Nat
deriving DecidableEq

/-- The denominator of a `PyQ`, always positive. -/

def PyQ.den (a : PyQ) : Nat := a.den1 + 1

/-- The rational value of a `PyQ`. -/

def PyQ.toRat (a : PyQ) : ℚ := (a.num : ℚ) / ((a.den1 : ℚ) + 1)

/-- Embed an integer. -/

def PyQ.ofInt (n : Int) : PyQ := ⟨n, 0⟩

/-- Exact addition (Python `+` on numbers). -/

def PyQ.add (a b : PyQ) : PyQ :=
  ⟨a.num * (b.den1 + 1) + b.num * (a.den1 + 1), (a.den1 + 1) * (b.den1 + 1) - 1⟩

/-- Exact subtraction (Python `-` on numbers). -/

def PyQ.sub (a b : PyQ) : PyQ :=
  ⟨a.num * (b.den1 + 1) - b.num * (a.den1 + 1), (a.den1 + 1) * (b.den1 + 1) - 1⟩

/-- Exact multiplication (Python `*` on numbers). -/

def PyQ.mul (a b : PyQ) : PyQ :=
  ⟨a.num * b.num, (a.den1 + 1) * (b.den1 + 1) - 1⟩

/-- Strict less-than (Python `<` between numbers). -/

def PyQ.blt (a b : PyQ) : Bool :=
  a.num * ((b.den1 : Int) + 1) < b.num * ((a.den1 : Int) + 1)

/-- Division by a nonzero integer; the source raises `ZeroDivisionError`
before this is ever applied to `n = 0`, so the value there is irrelevant. -/

def PyQ.divInt (a : PyQ) (n : Int) : PyQ :=
  if 0 ≤ n then ⟨a.num, (a.den1 + 1) * n.toNat - 1⟩
  else ⟨-a.num, (a.den1 + 1) * (-n).toNat - 1⟩

/-- Division by a positive natural number (list lengths). -/

def PyQ.divNat (a : PyQ) (n : Nat) : PyQ := ⟨a.num, (a.den1 + 1) * n - 1⟩

/-- Integer part of a `PyQ` under floor division (`num // den`). -/

def PyQ.floorv (a : PyQ) : Int := a.num / ((a.den1 : Int) + 1)

/-- Twice the remainder of `a` past its floor, scaled by the denominator:
`2 * (num - floor * den)`; comparing it with `den` decides which way a
half-even rounding goes. -/

def PyQ.rem2 (a : PyQ) : Int := 2 * (a.num - a.floorv * ((a.den1 : Int) + 1))

/-- Round to the nearest integer, ties to even: the behaviour of Python's
`round` on exact values. -/

def PyQ.roundHE (a : PyQ) : Int :=
  if a.rem2 < (a.den1 : Int) + 1 then a.floorv
  else if (a.den1 : Int) + 1 < a.rem2 then a.floorv + 1
  else if a.floorv % 2 = 0 then a.floorv else a.floorv + 1

/-- Python's `round(x, 1)` on exact values. -/

def PyQ.round1 (a : PyQ) : PyQ := ⟨PyQ.roundHE ⟨a.num * 10, a.den1⟩, 9⟩

/-- Python's `round(x, 2)` on exact values. -/

def PyQ.round2 (a : PyQ) : PyQ := ⟨PyQ.roundHE ⟨a.num * 100, a.den1⟩, 99⟩

/-- Mathematical round-half-to-even on `ℚ`, for stating what `PyQ.roundHE`
computes. -/

def rheQ (q : ℚ) : Int :=
  if q - ⌊q⌋ < 1/2 then ⌊q⌋
  else if 1/2 < q - ⌊q⌋ then ⌊q⌋ + 1
  else if ⌊q⌋ % 2 = 0 then ⌊q⌋ else ⌊q⌋ + 1

/-- `round(x, 1)` as a function on `ℚ`. -/

def round1Q (q : ℚ) : ℚ := (rheQ (10 * q) : ℚ) / 10

/-- A parsed JSON value, as returned by Python's `json.loads`: numbers are
exact rationals, objects keep their key/value pairs in document order
(duplicate keys are resolved to the last occurrence by `jlookup`, matching
`json.loads`). -/

inductive JValue where
  | jnum (q : PyQ)
  | jstr (s : String)
  | jbool (b : Bool)
  | jnull
  | jarr (elems : List JValue)
  | jobj (fields : List (String × JValue))

/-- Dictionary lookup on a parsed JSON object: the last binding of a key
wins, as in a Python dict built by `json.loads`. -/

def jlookup (kvs : List (String × JValue)) (k : String) : Option JValue :=
  kvs.foldl (fun acc p => if p.1 = k then some p.2 else acc) none

/-- Python's `dict.get(k, default)` on a parsed JSON object. -/

def jget (kvs : List (String × JValue)) (k : String) (d : JValue) : JValue :=
  (jlookup kvs k).getD d

/-- The Python exceptions that can arise inside the Completion Parser. -/

inductive PyExc where
  | jsonDecodeError (msg : String)
  | valueError (msg : String)
  | keyError (msg : String)
  | typeError (msg : String)
  | attributeError (msg : String)
  | zeroDivisionError
deriving DecidableEq

/-- JSON insignificant whitespace. -/

def jsonWs (c : Char) : Bool := c = ' ' || c = '\t' || c = '\n' || c = '\r'

/-- Drop leading JSON whitespace. -/

def skipWs : List Char → List Char
  | c :: cs => if jsonWs c then skipWs cs else c :: cs
  | [] => []

/-- ASCII digit test. -/

def isDig (c : Char) : Bool := '0' ≤ c && c ≤ '9'

/-- Value of an ASCII digit. -/

def digVal (c : Char) : Nat := c.toNat - 48

/-- Split off a maximal run of digits. -/

def takeDigits : List Char → (List Char × List Char)
  | [] => ([], [])
  | c :: cs =>
    if isDig c then
      let p := takeDigits cs
      (c :: p.1, p.2)
    else ([], c :: cs)

/-- Numeric value of a digit run. -/

def digitsToNat (ds : List Char) : Nat := ds.foldl (fun a c => a * 10 + digVal c) 0

/-- Value of a hexadecimal digit, if any. -/

def hexVal (c : Char) : Option Nat :=
  if isDig c then some (digVal c)
  else if 'a' ≤ c && c ≤ 'f' then some (c.toNat - 87)
  else if 'A' ≤ c && c ≤ 'F' then some (c.toNat - 55)
  else none

/-- Assemble a parsed JSON number from its sign, integer digits, fraction
digits and signed decimal exponent, as an exact rational. -/

def mkNum (neg : Bool) (intv : Nat) (fds : List Char) (epos : Bool) (e : Nat) : PyQ :=
  let k := fds.length
  let mant : Int := ((intv * 10 ^ k + digitsToNat fds : Nat) : Int)
  let mant := if neg then -mant else mant
  if epos then ⟨mant * (10 : Int) ^ e, 10 ^ k - 1⟩ else ⟨mant, 10 ^ (k + e) - 1⟩

/-- Parse the exponent-and-after part of a JSON number. -/

def parseExpPart (neg : Bool) (intv : Nat) (fds : List Char) :
    List Char → Option (PyQ × List Char)
  | c :: r =>
    if c = 'e' || c = 'E' then
      match r with
      | '+' :: rr =>
        let p := takeDigits rr
        if p.1.isEmpty then none else some (mkNum neg intv fds true (digitsToNat p.1), p.2)
      | '-' :: rr =>
        let p := takeDigits rr
        if p.1.isEmpty then none else some (mkNum neg intv fds false (digitsToNat p.1), p.2)
      | rr =>
        let p := takeDigits rr
        if p.1.isEmpty then none else some (mkNum neg intv fds true (digitsToNat p.1), p.2)
    else some (mkNum neg intv fds true 0, c :: r)
  | [] => some (mkNum neg intv fds true 0, [])

/-- Parse a JSON number starting at the current position. -/

def parseNum (cs : List Char) : Option (PyQ × List Char) :=
  let sp : Bool × List Char := match cs with
    | '-' :: r => (true, r)
    | _ => (false, cs)
  let ip := takeDigits sp.2
  if ip.1.isEmpty then none
  else
    match ip.2 with
    | '.' :: r =>
      let fp := takeDigits r
      if fp.1.isEmpty then none
      else parseExpPart sp.1 (digitsToNat ip.1) fp.1 fp.2
    | r => parseExpPart sp.1 (digitsToNat ip.1) [] r

/-- Parse the body of a JSON string (after the opening quote), decoding
escapes; returns the decoded characters and the rest of the input. -/

def parseStrAux : Nat → List Char → Option (List Char × List Char)
  | 0, _ => none
  | _ + 1, [] => none
  | f + 1, c :: cs =>
    if c = '"' then some ([], cs)
    else if c = '\\' then
      match cs with
      | [] => none
      | e :: cs2 =>
        if e = '"' then (parseStrAux f cs2).map (fun p => ('"' :: p.1, p.2))
        else if e = '\\' then (parseStrAux f cs2).map (fun p => ('\\' :: p.1, p.2))
        else if e = '/' then (parseStrAux f cs2).map (fun p => ('/' :: p.1, p.2))
        else if e = 'b' then (parseStrAux f cs2).map (fun p => ('\x08' :: p.1, p.2))
        else if e = 'f' then (parseStrAux f cs2).map (fun p => ('\x0c' :: p.1, p.2))
        else if e = 'n' then (parseStrAux f cs2).map (fun p => ('\n' :: p.1, p.2))
        else if e = 'r' then (parseStrAux f cs2).map (fun p => ('\r' :: p.1, p.2))
        else if e = 't' then (parseStrAux f cs2).map (fun p => ('\t' :: p.1, p.2))
        else if e = 'u' then
          match cs2 with
          | h1 :: h2 :: h3 :: h4 :: cs3 =>
            match hexVal h1, hexVal h2, hexVal h3, hexVal h4 with
            | some a, some b, some c3, some d =>
              (parseStrAux f cs3).map
                (fun p => (Char.ofNat (((a * 16 + b) * 16 + c3) * 16 + d) :: p.1, p.2))
            | _, _, _, _ => none
          | _ => none
        else none
    else (parseStrAux f cs).map (fun p => (c :: p.1, p.2))

mutual

/-- Parse one JSON value (fuel-indexed recursive descent). -/
def parseVal : Nat → List Char → Option (JValue × List Char)
  | 0, _ => none
  | f + 1, cs =>
    match skipWs cs with
    | [] => none
    | c :: rest =>
      if c = '\x7b' then
        match skipWs rest with
        | '\x7d' :: r2 => some (.jobj [], r2)
        | r2 => (parseMembers f r2).map (fun p => (JValue.jobj p.1, p.2))
      else if c = '[' then
        match skipWs rest with
        | ']' :: r2 => some (.jarr [], r2)
        | r2 => (parseItems f r2).map (fun p => (JValue.jarr p.1, p.2))
      else if c = '"' then
        (parseStrAux (f + 1) rest).map (fun p => (JValue.jstr (String.mk p.1), p.2))
      else if c = 't' then
        match rest with
        | 'r' :: 'u' :: 'e' :: r2 => some (.jbool true, r2)
        | _ => none
      else if c = 'f' then
        match rest with
        | 'a' :: 'l' :: 's' :: 'e' :: r2 => some (.jbool false, r2)
        | _ => none
      else if c = 'n' then
        match rest with
        | 'u' :: 'l' :: 'l' :: r2 => some (.jnull, r2)
        | _ => none
      else if c = '-' || isDig c then (parseNum (c :: rest)).map (fun p => (JValue.jnum p.1, p.2))
      else none

/-- Parse the members of a JSON object (at least one), up to the closing
brace. -/
def parseMembers : Nat → List Char → Option (List (String × JValue) × List Char)
  | 0, _ => none
  | f + 1, cs =>
    match skipWs cs with
    | '"' :: rest =>
      match parseStrAux (f + 1) rest with
      | none => none
      | some (key, r1) =>
        match skipWs r1 with
        | ':' :: r2 =>
          match parseVal f r2 with
          | none => none
          | some (v, r3) =>
            match skipWs r3 with
            | ',' :: r4 => (parseMembers f r4).map (fun p => ((String.mk key, v) :: p.1, p.2))
            | '\x7d' :: r4 => some ([(String.mk key, v)], r4)
            | _ => none
        | _ => none
    | _ => none

/-- Parse the items of a JSON array (at least one), up to the closing
bracket. -/
def parseItems : Nat → List Char → Option (List JValue × List Char)
  | 0, _ => none
  | f + 1, cs =>
    match parseVal f cs with
    | none => none
    | some (v, r1) =>
      match skipWs r1 with
      | ',' :: r2 => (parseItems f r2).map (fun p => (v :: p.1, p.2))
      | ']' :: r2 => some ([v], r2)
      | _ => none

end

/-- Model of Python's `json.loads`: parse one JSON value and require only
whitespace to remain.  Raises `json.JSONDecodeError` (a `ValueError`
subclass) on failure.  Numbers are read as exact rationals; the handful of
lexical corners where this model is laxer than CPython (leading zeros,
lone surrogates) play no role in any claim. -/

def json_loads (s : String) : Except PyExc JValue :=
  match parseVal (2 * s.length + 4) s.toList with
  | some (v, rest) =>
    if (skipWs rest).isEmpty then .ok v else .error (.jsonDecodeError "Extra data")
  | none => .error (.jsonDecodeError "Expecting value")

/-- `GradingCriterion` (dataclass).  Modelled from the spec: the dataclass
module `src/config/data_structures.py` imported by `llm_grader.py` is not in
the snapshot; fields follow spec §3 and the keyword-constructor calls in
`llm_grader.py` (the sibling top-level `data_structures.py` has the same
shape). -/

structure GradingCriterion where
  name : String
  max_points : Int
  description : String
  guidelines : String

/-- `ProblemRubric` (dataclass), same provenance as `GradingCriterion`. -/

structure ProblemRubric where
  problem_id : String
  total_points : Int
  criteria : List GradingCriterion
  problem_statement : String
  expected_response_type : String
  context : Option String

/-- `StudentResponse` (dataclass), same provenance as `GradingCriterion`. -/

structure StudentResponse where
  problem_id : String
  part_id : Option String
  content : String
  cell_type : String
  cell_index : Int
  execution_output : Option String
  has_errors : Bool

/-- `GradingResult` (dataclass), same provenance as `GradingCriterion`.
Python dataclass fields are dynamically typed and `_parse_llm_response`
stores raw JSON values in them, so the JSON-sourced fields are `JValue`s
here. -/

structure GradingResult where
  problem_id : String
  student_id : String
  scores : JValue
  total_score : JValue
  max_possible : Int
  percentage : JValue
  feedback : JValue
  suggestions : JValue
  confidence : JValue
  flagged_for_review : Bool

/-- Python `str.find(c)`: index of the first occurrence, `-1` if absent. -/

def findIdxChar : List Char → Char → Int
  | [], _ => -1
  | x :: xs, c =>
    if x = c then 0
    else
      let r := findIdxChar xs c
      if r = -1 then -1 else r + 1

/-- Python `str.rfind(c)`: index of the last occurrence, `-1` if absent. -/

def rfindIdxChar : List Char → Char → Int
  | [], _ => -1
  | x :: xs, c =>
    let r := rfindIdxChar xs c
    if r = -1 then (if x = c then 0 else -1) else r + 1

/-- Python `s.find(c)` on a string. -/

def strFind (s : String) (c : Char) : Int := findIdxChar s.toList c

/-- Python `s.rfind(c)` on a string. -/

def strRfind (s : String) (c : Char) : Int := rfindIdxChar s.toList c

/-- Python slice `s[a:b]` for nonnegative bounds. -/

def pySlice (s : String) (a b : Nat) : String := String.mk ((s.toList.drop a).take (b - a))

/-- Python `parsed.get(k, default)`: raises `AttributeError` when the parsed
JSON value is not an object (a dict). -/

def pyGet (v : JValue) (k : String) (d : JValue) : Except PyExc JValue :=
  match v with
  | .jobj kvs => .ok (jget kvs k d)
  | _ => .error (.attributeError "object has no attribute get")

/-- Left fold of Python's `sum` over dict values: ints, floats and bools
add up; any other element raises `TypeError` at its position. -/

def sumValuesAux : List (String × JValue) → PyQ → Except PyExc PyQ
  | [], acc => .ok acc
  | p :: rest, acc =>
    match p.2 with
    | .jnum q => sumValuesAux rest (acc.add q)
    | .jbool b => sumValuesAux rest (acc.add (PyQ.ofInt (if b then 1 else 0)))
    | _ => .error (.typeError "unsupported operand type for +")

/-- Python `sum(scores.values())`: `.values()` raises `AttributeError` on a
non-dict; summation starts from `0`. -/

def pySumValues : JValue → Except PyExc PyQ
  | .jobj kvs => sumValuesAux kvs (PyQ.ofInt 0)
  | _ => .error (.attributeError "object has no attribute values")

/-- Python `v < c` where `v` came from JSON and `c` is a number: numbers and
bools compare, anything else raises `TypeError`. -/

def pyLt (v : JValue) (c : PyQ) : Except PyExc Bool :=
  match v with
  | .jnum q => .ok (q.blt c)
  | .jbool b => .ok ((PyQ.ofInt (if b then 1 else 0)).blt c)
  | _ => .error (.typeError "not supported between instances")

/-- Python `v > n` for an integer `n`, same typing rules as `pyLt`. -/

def pyGtInt (v : JValue) (n : Int) : Except PyExc Bool :=
  match v with
  | .jnum q => .ok ((PyQ.ofInt n).blt q)
  | .jbool b => .ok ((PyQ.ofInt n).blt (PyQ.ofInt (if b then 1 else 0)))
  | _ => .error (.typeError "not supported between instances")

/-- Python `v / n` for an integer `n`: `TypeError` on a non-number,
`ZeroDivisionError` on `n = 0`. -/

def pyDivInt (v : JValue) (n : Int) : Except PyExc PyQ :=
  match v with
  | .jnum q => if n = 0 then .error .zeroDivisionError else .ok (q.divInt n)
  | .jbool b =>
    if n = 0 then .error .zeroDivisionError
    else .ok ((PyQ.ofInt (if b then 1 else 0)).divInt n)
  | _ => .error (.typeError "unsupported operand type for div")

/-- `LLMGrader._create_error_result`. -/

def create_error_result (response : StudentResponse) (rubric : ProblemRubric)
    (error_msg : String) : GradingResult :=
  { problem_id := response.problem_id
    student_id := ""
    scores := .jobj (rubric.criteria.map (fun crit => (crit.name, JValue.jnum (PyQ.ofInt 0))))
    total_score := .jnum (PyQ.ofInt 0)
    max_possible := rubric.total_points
    percentage := .jnum (PyQ.ofInt 0)
    feedback := .jstr ("Grading error occurred: " ++ error_msg)
    suggestions := .jarr [.jstr "Please review this submission manually"]
    confidence := .jnum (PyQ.ofInt 0)
    flagged_for_review := true }

/-- The `try` body of `LLMGrader._parse_llm_response`, with Python's
evaluation order: locate the braces, `json.loads` the slice, read `scores`,
eagerly evaluate `sum(scores.values())` (the default argument of `.get`),
resolve `total_score` and `confidence`, compute the flag with a
short-circuit `or`, eagerly evaluate `total_score / rubric.total_points *
100` (the default argument for `percentage`), then build the result. -/

def parse_llm_response_body (llm_response : String) (response : StudentResponse)
    (rubric : ProblemRubric) : Except PyExc GradingResult :=
  let json_start := strFind llm_response '\x7b'
  let json_end := strRfind llm_response '\x7d' + 1
  if json_start = -1 ∨ json_end = 0 then
    .error (.valueError "No JSON found in LLM response")
  else
    match json_loads (pySlice llm_response json_start.toNat json_end.toNat) with
    | .error e => .error e
    | .ok parsed =>
      match pyGet parsed "scores" (.jobj []) with
      | .error e => .error e
      | .ok scores =>
        match pySumValues scores with
        | .error e => .error e
        | .ok sum_scores =>
          match pyGet parsed "total_score" (.jnum sum_scores) with
          | .error e => .error e
          | .ok total_score =>
            match pyGet parsed "confidence" (.jnum ⟨1, 1⟩) with
            | .error e => .error e
            | .ok confidence =>
              match pyLt confidence ⟨7, 9⟩ with
              | .error e => .error e
              | .ok conf_low =>
                match (if conf_low then .ok true else pyGtInt total_score rubric.total_points :
                    Except PyExc Bool) with
                | .error e => .error e
                | .ok flagged =>
                  match pyDivInt total_score rubric.total_points with
                  | .error e => .error e
                  | .ok ratio =>
                    match pyGet parsed "percentage" (.jnum (ratio.mul (PyQ.ofInt 100))) with
                    | .error e => .error e
                    | .ok percentage =>
                      match pyGet parsed "feedback" (.jstr "No feedback provided") with
                      | .error e => .error e
                      | .ok feedback =>
                        match pyGet parsed "suggestions" (.jarr []) with
                        | .error e => .error e
                        | .ok suggestions =>
                          .ok { problem_id := response.problem_id
                                student_id := ""
                                scores := scores
                                total_score := total_score
                                max_possible := rubric.total_points
                                percentage := percentage
                                feedback := feedback
                                suggestions := suggestions
                                confidence := confidence
                                flagged_for_review := flagged }

/-- The exception classes caught by `_parse_llm_response`:
`(json.JSONDecodeError, KeyError, ValueError)`.  `TypeError`,
`AttributeError` and `ZeroDivisionError` are not in the tuple. -/

def isCaught : PyExc → Bool
  | .jsonDecodeError _ => true
  | .keyError _ => true
  | .valueError _ => true
  | _ => false

/-- Python `str(e)` for the exceptions above. -/

def excMsg : PyExc → String
  | .jsonDecodeError m => m
  | .valueError m => m
  | .keyError m => m
  | .typeError m => m
  | .attributeError m => m
  | .zeroDivisionError => "division by zero"

/-- `LLMGrader._parse_llm_response`: run the body; a caught exception is
turned into `_create_error_result`; any other exception propagates to the
caller. -/

def parse_llm_response (llm_response : String) (response : StudentResponse)
    (rubric : ProblemRubric) : Except PyExc GradingResult :=
  match parse_llm_response_body llm_response response rubric with
  | .ok r => .ok r
  | .error e =>
    if isCaught e then
      .ok (create_error_result response rubric ("Parse error: " ++ excMsg e))
    else .error e

/-- A notebook output payload: JSON strings may be a plain string or a list
of line strings (`isinstance(x, list)` in the source). -/

inductive PyStr where
  | s (v : String)
  | lst (vs : List String)

/-- `''.join(x)` when the payload is a list, `str(x)` (identity) otherwise. -/

def joinPy : PyStr → String
  | .s v => v
  | .lst vs => String.join vs

/-- One entry of a code cell's `outputs` list: the keys the parser reads.
`output_type` is `output.get('output_type', ...)`; `text`/`data` model key
presence. -/

structure Output where
  output_type : Option String
  text : Option PyStr
  data : Option (List (String × PyStr))

/-- A notebook cell: `cell_type`, `source`, `metadata.tags`, `outputs`. -/

structure Cell where
  cell_type : String
  source : String
  tags : List String
  outputs : List Output

/-- Python's whitespace set for `str.strip()` and the `str.isspace` test. -/

def pySpace (c : Char) : Bool :=
  c = ' ' || c = '\t' || c = '\n' || c = '\r' || c = '\x0b' || c = '\x0c'

/-- Python `str.strip()`. -/

def pyStrip (s : String) : String :=
  String.mk (((s.toList.dropWhile pySpace).reverse.dropWhile pySpace).reverse)

/-- List begins with the given needle. -/

def isPrefixList : List Char → List Char → Bool
  | [], _ => true
  | _ :: _, [] => false
  | a :: as, b :: bs => a = b && isPrefixList as bs

/-- Needle occurs somewhere in the haystack (Python `needle in hay`). -/

def isSubList (needle : List Char) : List Char → Bool
  | [] => isPrefixList needle []
  | c :: cs => isPrefixList needle (c :: cs) || isSubList needle cs

/-- Python `needle in hay` on strings. -/

def containsSub (hay needle : String) : Bool := isSubList needle.toList hay.toList

/-- ASCII lowering, enough for the parser's all-ASCII indicator strings
(Python `str.lower()`). -/

def lowerChar (c : Char) : Char :=
  if 'A' ≤ c && c ≤ 'Z' then Char.ofNat (c.toNat + 32) else c

/-- Python `str.lower()`. -/

def pyLower (s : String) : String := String.mk (s.toList.map lowerChar)

/-- Python `str.split('\n')` helper. -/

def splitNlAux : List Char → List Char → List String
  | [], acc => [String.mk acc.reverse]
  | c :: cs, acc =>
    if c = '\n' then String.mk acc.reverse :: splitNlAux cs []
    else splitNlAux cs (c :: acc)

/-- Python `str.split('\n')`. -/

def pySplitNl (s : String) : List String := splitNlAux s.toList []

/-- Python `str.startswith('#')`. -/

def startsWithHash (s : String) : Bool :=
  match s.toList with
  | '#' :: _ => true
  | _ => false

/-- `NotebookParser._is_answer_cell` (src/notebook_parser.py): explicit tag
check first — the source's recognized tags are the space-separated strings
`'code answer'` and `'text answer'` — then the empty/code/markdown
heuristics. -/

def is_answer_cell (cell : Cell) : Bool :=
  if cell.tags.contains "code answer" || cell.tags.contains "text answer" then true
  else
    let content := pyStrip cell.source
    if content = "" then false
    else if cell.cell_type = "code" then
      ((pySplitNl content).filter
        (fun line => pyStrip line ≠ "" && !startsWithHash (pyStrip line))).length > 0
    else if cell.cell_type = "markdown" then
      let problem_indicators := ["##", "(10)", "(20)", "(30)", "(40)", "points)", "---"]
      if problem_indicators.any (fun ind => containsSub content ind) &&
          ((pySplitNl content).length ≤ 5 &&
            problem_indicators.any
              (fun ind => containsSub (String.mk (content.toList.take 100)) ind)) then
        false
      else
        let answer_indicators :=
          ["answer:", "**answer:**", "solution:", "response:", "###",
           "interpretation:", "why these help:"]
        let content_lower := pyLower content
        if answer_indicators.any (fun ind => containsSub content_lower ind) then true
        else content.length > 50
    else true

/-- Dict membership on a notebook `data` mapping (`mime in data`). -/

def dhas (d : List (String × PyStr)) (k : String) : Bool := d.any (fun p => p.1 = k)

/-- Dict access `data[mime]` (notebook data mappings have unique keys). -/

def dget (d : List (String × PyStr)) (k : String) : PyStr :=
  (((d.find? (fun p => p.1 = k)).map Prod.snd)).getD (.s "")

/-- Try the capture `\d+(?:\.\d+)?` at the head of the input, returning the
captured characters. -/

def matchCapture (cs : List Char) : Option (List Char) :=
  let p := takeDigits cs
  if p.1.isEmpty then none
  else
    match p.2 with
    | '.' :: r =>
      let q := takeDigits r
      if q.1.isEmpty then some p.1 else some (p.1 ++ '.' :: q.1)
    | _ => some p.1

/-- Try the pattern `lit["\x27]?(\d+(?:\.\d+)?)` at the current position
(the source's SVG `width=`/`height=` regex), with the regex's backtracking
over the optional quote. -/

def matchAttrAt (lit : List Char) (cs : List Char) : Option (List Char) :=
  if isPrefixList lit cs then
    let rest := cs.drop lit.length
    match rest with
    | c :: r =>
      if c = '"' || c = '\x27' then
        match matchCapture r with
        | some g => some g
        | none => matchCapture rest
      else matchCapture rest
    | [] => none
  else none

/-- `re.search` for the attribute pattern: first position where it matches. -/

def searchAttr (lit : List Char) : List Char → Option (List Char)
  | [] => none
  | c :: cs =>
    match matchAttrAt lit (c :: cs) with
    | some g => some g
    | none => searchAttr lit cs

/-- The metadata block built for one recognized image format (the body of
the source's image loop). -/

def imageInfo (i : Nat) (fmt : String) (d : List (String × PyStr)) : String :=
  let base := "[IMAGE OUTPUT " ++ toString (i + 1) ++ "]\nFormat: " ++ fmt ++ "\n"
  if fmt = "image/svg+xml" then
    let svg := joinPy (dget d fmt)
    let dims :=
      match searchAttr "width=".toList svg.toList, searchAttr "height=".toList svg.toList with
      | some w, some h => "Dimensions: " ++ String.mk w ++ " x " ++ String.mk h ++ "\n"
      | _, _ => ""
    let snippet :=
      if svg.length > 500 then
        "SVG Content (first 500 chars): " ++ String.mk (svg.toList.take 500) ++ "...\n"
      else "SVG Content: " ++ svg ++ "\n"
    base ++ dims ++ snippet
  else
    let sizeLine :=
      match dget d fmt with
      | .s v => "Data size: ~" ++ toString v.length ++ " characters (base64 encoded)\n"
      | .lst _ => ""
    base ++ sizeLine ++ "Image contains: Matplotlib plot/visualization\n"

/-- The source's image-format list, in iteration order. -/

def imageFormats : List String := ["image/png", "image/jpeg", "image/svg+xml"]

/-- The image-format loop with its `break`: the block of the first format
present in `data`, and nothing for the others. -/

def imageLoop (i : Nat) (d : List (String × PyStr)) : List String → List String
  | [] => []
  | f :: rest => if dhas d f then [imageInfo i f d] else imageLoop i d rest

/-- All image blocks contributed by one output's `data` (at most one, by
the `break`). -/

def firstImageBlock (i : Nat) (d : List (String × PyStr)) : List String :=
  imageLoop i d imageFormats

/-- The `text/plain` block of the `data` branch. -/

def plainTextBlock (i : Nat) (d : List (String × PyStr)) : List String :=
  if dhas d "text/plain" then
    let content := joinPy (dget d "text/plain")
    if pyStrip content ≠ "" then
      ["[PLAIN TEXT OUTPUT " ++ toString (i + 1) ++ "]\n" ++ content]
    else []
  else []

/-- The `text/html` block of the `data` branch. -/

def htmlBlock (i : Nat) (d : List (String × PyStr)) : List String :=
  if dhas d "text/html" then
    let content := joinPy (dget d "text/html")
    let preview :=
      if content.length > 1000 then String.mk (content.toList.take 1000) ++ "...[truncated]"
      else content
    ["[HTML OUTPUT " ++ toString (i + 1) ++ "]\n" ++ preview]
  else []

/-- The summary blocks contributed by the `i`-th output entry: the
`if 'text' in output / elif 'data' in output / elif output_type ==
'execute_result' and 'data' in output` chain of
`NotebookParser._get_execution_output`. -/

def processOutput (i : Nat) (o : Output) : List String :=
  if o.text.isSome then
    match o.text with
    | some td =>
      let content := joinPy td
      if pyStrip content ≠ "" then ["[TEXT OUTPUT " ++ toString (i + 1) ++ "]\n" ++ content]
      else []
    | none => []
  else if o.data.isSome then
    match o.data with
    | some d => plainTextBlock i d ++ firstImageBlock i d ++ htmlBlock i d
    | none => []
  else if o.output_type.getD "unknown" = "execute_result" && o.data.isSome then
    match o.data with
    | some d =>
      if dhas d "text/plain" then
        ["[EXECUTION RESULT " ++ toString (i + 1) ++ "]\n" ++ joinPy (dget d "text/plain")]
      else []
    | none => []
  else []

/-- `processOutput` with the `execute_result` branch removed.  Comparing
with `processOutput` states that that branch of the source is dead code:
its guard re-requires the `data` key whose absence the previous `elif`
already established. -/

def processOutputNoExecBranch (i : Nat) (o : Output) : List String :=
  if o.text.isSome then
    match o.text with
    | some td =>
      let content := joinPy td
      if pyStrip content ≠ "" then ["[TEXT OUTPUT " ++ toString (i + 1) ++ "]\n" ++ content]
      else []
    | none => []
  else if o.data.isSome then
    match o.data with
    | some d => plainTextBlock i d ++ firstImageBlock i d ++ htmlBlock i d
    | none => []
  else []

/-- Enumerate the outputs (`for i, output in enumerate(outputs)`),
collecting all blocks. -/

def enumOutputs : Nat → List Output → List String
  | _, [] => []
  | i, o :: rest => processOutput i o ++ enumOutputs (i + 1) rest

/-- `NotebookParser._get_execution_output`. -/

def get_execution_output (cell : Cell) : Option String :=
  if cell.cell_type ≠ "code" then none
  else if cell.outputs.isEmpty then none
  else
    let comps := enumOutputs 0 cell.outputs
    if comps.isEmpty then none else some (String.intercalate "\n\n" comps)

/-- One criterion entry of the rubric-data mapping built by
`RubricManager._parse_txt_rubric`. -/

structure CriterionData where
  points : Int
  description : String
  guidelines : String

/-- One problem entry of the rubric-data mapping. -/

structure ProblemData where
  total_points : Int
  problem_statement : String
  expected_response_type : String
  context : Option String
  criteria : List (String × CriterionData)

/-- `RubricManager._parse_txt_rubric` (src/reports/rubric_manager.py): the
source ignores both the file `content` and the `assignment_id` and returns
the fixed single-problem "simple default structure" below. -/

def parse_txt_rubric (content : String) (assignment_id : String) :
    List (String × ProblemData) :=
  [("part_1",
    { total_points := 30
      problem_statement := "General homework problem"
      expected_response_type := "mixed"
      context := some "Student should provide thoughtful analysis"
      criteria :=
        [("content_quality",
          ⟨15, "Quality and depth of response",
            "Clear reasoning and understanding demonstrated"⟩),
         ("implementation",
          ⟨10, "Code quality and correctness",
            "Working code with proper structure"⟩),
         ("presentation",
          ⟨5, "Clear presentation and communication",
            "Well-organized and clearly written"⟩)]})]

/-- `RubricManager.load_assignment_rubric` on the path where the rubric
file exists and the assignment is not cached: read and strip the file
text, parse it with `_parse_txt_rubric`, and convert the entries to
`ProblemRubric` objects.  File IO and the per-process cache are outside
the embedding; `rubric_content` is the text the file holds. -/

def load_assignment_rubric (rubric_content : String) (assignment_id : String) :
    List (String × ProblemRubric) :=
  (parse_txt_rubric (pyStrip rubric_content) assignment_id).map
    (fun p =>
      (p.1,
        { problem_id := p.1
          total_points := p.2.total_points
          criteria := p.2.criteria.map (fun c =>
            { name := c.1
              max_points := c.2.points
              description := c.2.description
              guidelines := c.2.guidelines })
          problem_statement := p.2.problem_statement
          expected_response_type := p.2.expected_response_type
          context := p.2.context }))

/-- One per-run result as read by `aggregate_results`
(multi_run_grader.py): the `GradingResult` fields the aggregator touches,
at the numeric runtime types the per-run graders produce. -/

structure RunResult where
  student_id : String
  problem_id : String
  total_score : PyQ
  confidence : PyQ
  feedback : String
  suggestions : List String
  max_possible : Int

/-- The accumulator entry of `student_problem_data` for one
`(student_id, problem_id)` key. -/

structure GroupData where
  student_id : String
  problem_id : String
  scores : List PyQ
  confidences : List PyQ
  feedbacks : List String
  suggestions : List String
  max_possible : Int

/-- The grouping key `f"{student_id}|{problem_id}"`. -/

def groupKey (r : RunResult) : String := r.student_id ++ "|" ++ r.problem_id

/-- Process one per-run result into the insertion-ordered group mapping
(Python dicts preserve insertion order; an existing key is updated in
place). -/

def addToGroups (gs : List (String × GroupData)) (r : RunResult) :
    List (String × GroupData) :=
  if gs.any (fun g => g.1 = groupKey r) then
    gs.map (fun g =>
      if g.1 = groupKey r then
        (g.1,
          { g.2 with
            scores := g.2.scores ++ [r.total_score]
            confidences := g.2.confidences ++ [r.confidence]
            feedbacks := g.2.feedbacks ++ [r.feedback]
            suggestions := g.2.suggestions ++ r.suggestions })
      else g)
  else
    gs ++ [(groupKey r,
      { student_id := r.student_id
        problem_id := r.problem_id
        scores := [r.total_score]
        confidences := [r.confidence]
        feedbacks := [r.feedback]
        suggestions := r.suggestions
        max_possible := r.max_possible })]

/-- `feedback.replace('.', '.\n')`. -/

def pyReplaceDot (s : String) : String :=
  String.mk (s.toList.foldr (fun c acc => if c = '.' then '.' :: '\n' :: acc else c :: acc) [])

/-- The sentence-collection loop of `summarize_feedback`: keep stripped
sentences longer than 20 characters, first occurrence only. -/

def addPoints : List String → List String → List String
  | pts, [] => pts
  | pts, sentence :: rest =>
    let s := pyStrip sentence
    if s.length > 20 && !pts.contains s then addPoints (pts ++ [s]) rest
    else addPoints pts rest

/-- `summarize_feedback` (multi_run_grader.py). -/

def summarize_feedback (feedbacks : List String) : String :=
  match feedbacks with
  | [] => "No feedback available"
  | [f] => f
  | _ =>
    let all_points :=
      feedbacks.foldl (fun pts fb => addPoints pts (pySplitNl (pyReplaceDot fb))) []
    if all_points.length ≤ 3 then String.intercalate " " all_points
    else
      "Multiple models provided consistent feedback: " ++
        String.intercalate " " (all_points.take 3) ++ " [Summary of " ++
        toString feedbacks.length ++ " model responses]"

/-- `list(set(xs))[:5]`, modelled as first-occurrence deduplication.
CPython's set iteration order is unspecified; no claim depends on the
order. -/

def dedupFirst (xs : List String) : List String :=
  xs.foldl (fun acc x => if acc.contains x then acc else acc ++ [x]) []

/-- `sum(xs)` over exact numbers. -/

def pySumList (xs : List PyQ) : PyQ := xs.foldl PyQ.add (PyQ.ofInt 0)

/-- `statistics.mean(xs)` (callers guarantee `xs` nonempty). -/

def pyMean (xs : List PyQ) : PyQ := (pySumList xs).divNat xs.length

/-- The square of `statistics.stdev(xs)`: the sample variance
`Σ (x - mean)² / (n - 1)` (callers guarantee `n ≥ 2`). -/

def sampleVarPyQ (xs : List PyQ) : PyQ :=
  let m := pyMean xs
  (pySumList (xs.map (fun x => (x.sub m).mul (x.sub m)))).divNat (xs.length - 1)

/-- The source's `score_variance > threshold` where `score_variance =
statistics.stdev(scores) if len(scores) > 1 else 0`, computed without
square roots: for `t ≥ 0`, `√v > t ↔ v > t²`, and a negative threshold is
always exceeded.  `stdevGt_iff` below proves this equal to the
square-root comparison. -/

def stdevGt (xs : List PyQ) (t : PyQ) : Bool :=
  if 1 < xs.length then t.blt (PyQ.ofInt 0) || (t.mul t).blt (sampleVarPyQ xs)
  else t.blt (PyQ.ofInt 0)

/-- The loop body of `aggregate_results` for one group: averaged score and
confidence, variance-based flag, merged feedback and deduplicated
suggestions.  Two remarks on fidelity: the source appends
`" [Score variance: {v:.1f}]"` to the feedback when the variance flag is
set — the decimal rendering of that float square root is outside the
rational model and no claim reads the feedback — and the source raises
`ZeroDivisionError` when `max_possible = 0` (no claim exercises that). -/

def mkAveraged (g : GroupData) (variance_threshold : PyQ) : GradingResult :=
  let avg_score := pyMean g.scores
  let avg_confidence := pyMean g.confidences
  let high_variance := stdevGt g.scores variance_threshold
  let merged_feedback := summarize_feedback g.feedbacks
  let unique_suggestions := (dedupFirst g.suggestions).take 5
  { problem_id := g.problem_id
    student_id := g.student_id
    scores := .jobj []
    total_score := .jnum avg_score.round1
    max_possible := g.max_possible
    percentage := .jnum ((avg_score.divInt g.max_possible).mul (PyQ.ofInt 100)).round1
    feedback := .jstr merged_feedback
    suggestions := .jarr (unique_suggestions.map JValue.jstr)
    confidence := .jnum avg_confidence.round2
    flagged_for_review := high_variance || avg_confidence.blt ⟨7, 9⟩ }

/-- `aggregate_results` (multi_run_grader.py): flatten the runs'
`all_results` lists in order, group by `(student_id, problem_id)`, and
emit one averaged result per nonempty group.  `variance_threshold` is
`config.get('aggregation', {}).get('variance_threshold', 15)`. -/

def aggregate_results (run_results : List (List RunResult)) (variance_threshold : PyQ) :
    List GradingResult :=
  let groups := run_results.foldl (fun acc run => run.foldl addToGroups acc) []
  (groups.filter (fun g => 1 ≤ g.2.scores.length)).map
    (fun g => mkAveraged g.2 variance_threshold)

/-- Arithmetic mean on `ℚ`, for stating what the aggregator computes. -/

def meanQ (xs : List ℚ) : ℚ := xs.sum / (xs.length : ℚ)

/-- Sample variance on `ℚ` (the square of `statistics.stdev`). -/

def sampleVarQ (xs : List ℚ) : ℚ :=
  ((xs.map (fun x => (x - meanQ xs) ^ 2)).sum) / ((xs.length : ℚ) - 1)


/-- A JSON value Python can use in arithmetic and comparisons with numbers:
a number or a bool. -/
def numlike : JValue → Bool
  | .jnum _ => true
  | .jbool _ => true
  | _ => false

/-- The numeric value of a number-or-bool JSON value (`0` elsewhere, never
used there). -/
def jnumVal : JValue → ℚ
  | .jnum a => a.toRat
  | .jbool b => if b then 1 else 0
  | _ => 0

/-- The typing condition under which the dynamic arithmetic of
`_parse_llm_response` cannot raise: the parsed completion is an object
whose `scores` value is a map with numeric values and whose `total_score`
and `confidence` values (when present) are numeric. -/
def numSafe : JValue → Bool
  | .jobj kvs =>
    (match jget kvs "scores" (.jobj []) with
     | .jobj svs => svs.all (fun p => numlike p.2)
     | _ => false)
    && numlike (jget kvs "total_score" (.jnum (PyQ.ofInt 0)))
    && numlike (jget kvs "confidence" (.jnum ⟨1, 1⟩))
  | _ => false

/-- A completion is well typed when its extracted JSON either fails to
parse (handled by the fallback) or parses to a `numSafe` object. -/
def wellTypedCompletion (s : String) : Bool :=
  if strFind s '\x7b' = -1 ∨ strRfind s '\x7d' + 1 = 0 then true
  else
    match json_loads (pySlice s (strFind s '\x7b').toNat ((strRfind s '\x7d') + 1).toNat) with
    | .ok v => numSafe v
    | .error _ => true

/-- A completion is malformed when no JSON braces are found or the
extracted slice is not valid JSON (the spec's first two malformation
cases). -/
def malformedCompletion (s : String) : Bool :=
  if strFind s '\x7b' = -1 ∨ strRfind s '\x7d' + 1 = 0 then true
  else
    match json_loads (pySlice s (strFind s '\x7b').toNat ((strRfind s '\x7d') + 1).toNat) with
    | .ok _ => false
    | .error _ => true

/-- Fixture: a student response. -/
def respA : StudentResponse := ⟨"part_1", none, "print(1+1)", "code", 1, none, false⟩

/-- Fixture: a one-criterion ten-point rubric. -/
def rubricA : ProblemRubric := ⟨"part_1", 10, [⟨"c", 10, "crit", "guide"⟩], "stmt", "mixed", none⟩

/-- Fixture: a rubric whose `total_points` is zero. -/
def rubricZero : ProblemRubric := ⟨"part_1", 0, [⟨"c", 10, "crit", "guide"⟩], "stmt", "mixed", none⟩

/-- Fixture: a code cell whose single output is typed `execute_result` and
carries only a `text/plain` representation. -/
def execResultCell : Cell :=
  ⟨"code", "1+1", [], [⟨some "execute_result", none, some [("text/plain", .s "2")]⟩]⟩

/-- Fixture: a cell tagged with the hyphenated tag the spec names. -/
def hyphenTaggedCell : Cell := ⟨"code", "", ["code-answer"], []⟩

/-- Fixture: a cell tagged with the source's space-separated tag. -/
def spaceTaggedCell : Cell := ⟨"markdown", "", ["text answer"], []⟩

/-- Fixture: one per-run result for aggregation examples. -/
def runOf (score : Int) : RunResult :=
  ⟨"s1", "p1", PyQ.ofInt score, ⟨9, 9⟩, "fb", [], 100⟩

/-- Fixture: the claim's example group with run scores 80, 82, 84 and
confidences 0.9. -/
def c9group : GroupData :=
  ⟨"s1", "p1", [⟨80, 0⟩, ⟨82, 0⟩, ⟨84, 0⟩], [⟨9, 9⟩, ⟨9, 9⟩, ⟨9, 9⟩], ["fb"], [], 100⟩

-- ================= theorems =================

theorem PyQ.den_pos (a : PyQ) : (0 : ℚ) < (a.den1 : ℚ) + 1 := by positivity

theorem PyQ.toRat_ofInt (n : Int) : (PyQ.ofInt n).toRat = (n : ℚ) := by
  simp [PyQ.ofInt, PyQ.toRat]

theorem PyQ.toRat_add (a b : PyQ) : (a.add b).toRat = a.toRat + b.toRat := by
  have ha := a.den_pos
  have hb := b.den_pos
  have hd : ((a.den1 + 1) * (b.den1 + 1) - 1 : Nat) = (a.den1 + 1) * (b.den1 + 1) - 1 := rfl
  simp only [PyQ.add, PyQ.toRat]
  have h1 : (((a.den1 + 1) * (b.den1 + 1) - 1 : Nat) : ℚ) + 1
      = ((a.den1 : ℚ) + 1) * ((b.den1 : ℚ) + 1) := by
    have : ((a.den1 + 1) * (b.den1 + 1) - 1 : Nat) + 1 = (a.den1 + 1) * (b.den1 + 1) := by
      have : 1 ≤ (a.den1 + 1) * (b.den1 + 1) := Nat.one_le_iff_ne_zero.mpr (by positivity)
      omega
    calc (((a.den1 + 1) * (b.den1 + 1) - 1 : Nat) : ℚ) + 1
        = ((((a.den1 + 1) * (b.den1 + 1) - 1) + 1 : Nat) : ℚ) := by push_cast; ring
      _ = (((a.den1 + 1) * (b.den1 + 1) : Nat) : ℚ) := by rw [this]
      _ = ((a.den1 : ℚ) + 1) * ((b.den1 : ℚ) + 1) := by push_cast; ring
  rw [h1]
  field_simp

theorem PyQ.toRat_sub (a b : PyQ) : (a.sub b).toRat = a.toRat - b.toRat := by
  have ha := a.den_pos
  have hb := b.den_pos
  simp only [PyQ.sub, PyQ.toRat]
  have h1 : (((a.den1 + 1) * (b.den1 + 1) - 1 : Nat) : ℚ) + 1
      = ((a.den1 : ℚ) + 1) * ((b.den1 : ℚ) + 1) := by
    have : ((a.den1 + 1) * (b.den1 + 1) - 1 : Nat) + 1 = (a.den1 + 1) * (b.den1 + 1) := by
      have : 1 ≤ (a.den1 + 1) * (b.den1 + 1) := Nat.one_le_iff_ne_zero.mpr (by positivity)
      omega
    calc (((a.den1 + 1) * (b.den1 + 1) - 1 : Nat) : ℚ) + 1
        = ((((a.den1 + 1) * (b.den1 + 1) - 1) + 1 : Nat) : ℚ) := by push_cast; ring
      _ = (((a.den1 + 1) * (b.den1 + 1) : Nat) : ℚ) := by rw [this]
      _ = ((a.den1 : ℚ) + 1) * ((b.den1 : ℚ) + 1) := by push_cast; ring
  rw [h1]
  field_simp
  ring

theorem PyQ.toRat_mul (a b : PyQ) : (a.mul b).toRat = a.toRat * b.toRat := by
  have ha := a.den_pos
  have hb := b.den_pos
  simp only [PyQ.mul, PyQ.toRat]
  have h1 : (((a.den1 + 1) * (b.den1 + 1) - 1 : Nat) : ℚ) + 1
      = ((a.den1 : ℚ) + 1) * ((b.den1 : ℚ) + 1) := by
    have : ((a.den1 + 1) * (b.den1 + 1) - 1 : Nat) + 1 = (a.den1 + 1) * (b.den1 + 1) := by
      have : 1 ≤ (a.den1 + 1) * (b.den1 + 1) := Nat.one_le_iff_ne_zero.mpr (by positivity)
      omega
    calc (((a.den1 + 1) * (b.den1 + 1) - 1 : Nat) : ℚ) + 1
        = ((((a.den1 + 1) * (b.den1 + 1) - 1) + 1 : Nat) : ℚ) := by push_cast; ring
      _ = (((a.den1 + 1) * (b.den1 + 1) : Nat) : ℚ) := by rw [this]
      _ = ((a.den1 : ℚ) + 1) * ((b.den1 : ℚ) + 1) := by push_cast; ring
  rw [h1]
  field_simp

theorem PyQ.blt_iff (a b : PyQ) : a.blt b = true ↔ a.toRat < b.toRat := by
  have ha := a.den_pos
  have hb := b.den_pos
  simp only [PyQ.blt, PyQ.toRat, decide_eq_true_eq]
  rw [div_lt_div_iff₀ ha hb]
  constructor
  · intro h
    exact_mod_cast h
  · intro h
    exact_mod_cast h

theorem PyQ.toRat_divNat (a : PyQ) (n : Nat) (hn : 0 < n) :
    (a.divNat n).toRat = a.toRat / (n : ℚ) := by
  have ha := a.den_pos
  simp only [PyQ.divNat, PyQ.toRat]
  have h1 : (((a.den1 + 1) * n - 1 : Nat) : ℚ) + 1 = ((a.den1 : ℚ) + 1) * (n : ℚ) := by
    have h2 : ((a.den1 + 1) * n - 1 : Nat) + 1 = (a.den1 + 1) * n := by
      have : 1 ≤ (a.den1 + 1) * n := Nat.one_le_iff_ne_zero.mpr (by positivity)
      omega
    calc (((a.den1 + 1) * n - 1 : Nat) : ℚ) + 1
        = ((((a.den1 + 1) * n - 1) + 1 : Nat) : ℚ) := by push_cast; ring
      _ = (((a.den1 + 1) * n : Nat) : ℚ) := by rw [h2]
      _ = ((a.den1 : ℚ) + 1) * (n : ℚ) := by push_cast; ring
  rw [h1]
  have hnq : (0 : ℚ) < (n : ℚ) := by exact_mod_cast hn
  field_simp

theorem PyQ.toRat_divInt (a : PyQ) (n : Int) (hn : n ≠ 0) :
    (a.divInt n).toRat = a.toRat / (n : ℚ) := by
  have ha := a.den_pos
  simp only [PyQ.divInt]
  by_cases h : 0 ≤ n
  · have hpos : 0 < n := lt_of_le_of_ne h (Ne.symm hn)
    simp only [h, if_true, PyQ.toRat]
    have hton : ((n.toNat : Int) : ℚ) = (n : ℚ) := by
      rw [Int.toNat_of_nonneg h]
    have h1 : (((a.den1 + 1) * n.toNat - 1 : Nat) : ℚ) + 1
        = ((a.den1 : ℚ) + 1) * (n : ℚ) := by
      have hpos' : 0 < n.toNat := by omega
      have h2 : ((a.den1 + 1) * n.toNat - 1 : Nat) + 1 = (a.den1 + 1) * n.toNat := by
        have : 1 ≤ (a.den1 + 1) * n.toNat := Nat.one_le_iff_ne_zero.mpr (by positivity)
        omega
      calc (((a.den1 + 1) * n.toNat - 1 : Nat) : ℚ) + 1
          = ((((a.den1 + 1) * n.toNat - 1) + 1 : Nat) : ℚ) := by push_cast; ring
        _ = (((a.den1 + 1) * n.toNat : Nat) : ℚ) := by rw [h2]
        _ = ((a.den1 : ℚ) + 1) * (n : ℚ) := by
              push_cast
              rw [show ((n.toNat : ℚ)) = (n : ℚ) by exact_mod_cast hton]
    rw [h1]
    have hnq : (0 : ℚ) < (n : ℚ) := by exact_mod_cast hpos
    rw [div_div]
  · have hneg : n < 0 := by omega
    simp only [h, if_false, PyQ.toRat]
    have h1 : (((a.den1 + 1) * (-n).toNat - 1 : Nat) : ℚ) + 1
        = ((a.den1 : ℚ) + 1) * ((-n : Int) : ℚ) := by
      have hpos' : 0 < (-n).toNat := by omega
      have h2 : ((a.den1 + 1) * (-n).toNat - 1 : Nat) + 1 = (a.den1 + 1) * (-n).toNat := by
        have : 1 ≤ (a.den1 + 1) * (-n).toNat := Nat.one_le_iff_ne_zero.mpr (by positivity)
        omega
      calc (((a.den1 + 1) * (-n).toNat - 1 : Nat) : ℚ) + 1
          = ((((a.den1 + 1) * (-n).toNat - 1) + 1 : Nat) : ℚ) := by push_cast; ring
        _ = (((a.den1 + 1) * (-n).toNat : Nat) : ℚ) := by rw [h2]
        _ = ((a.den1 : ℚ) + 1) * ((-n : Int) : ℚ) := by
              have hcast : (((-n).toNat : Nat) : ℚ) = ((-n : Int) : ℚ) := by
                exact_mod_cast congrArg (fun z : Int => (z : ℚ))
                  (Int.toNat_of_nonneg (by omega : (0:Int) ≤ -n))
              push_cast [hcast]
              ring
    rw [h1]
    have hnq : ((-n : Int) : ℚ) = -(n : ℚ) := by push_cast; ring
    rw [hnq]
    have hnq0 : (n : ℚ) ≠ 0 := by exact_mod_cast hn
    field_simp

theorem PyQ.floorv_eq (a : PyQ) : a.floorv = ⌊a.toRat⌋ := by
  have h := Rat.floor_intCast_div_natCast a.num (a.den1 + 1)
  rw [PyQ.floorv, PyQ.toRat]
  rw [show ((a.den1 : ℚ) + 1) = (((a.den1 + 1 : Nat)) : ℚ) by push_cast; ring]
  rw [h]
  push_cast
  ring

theorem PyQ.rem2_lt_iff (a : PyQ) :
    (a.rem2 < (a.den1 : Int) + 1) ↔ (a.toRat - ⌊a.toRat⌋ < 1/2) := by
  have hd : (0:ℚ) < (a.den1 : ℚ) + 1 := a.den_pos
  rw [← PyQ.floorv_eq, PyQ.rem2, PyQ.toRat]
  rw [sub_lt_iff_lt_add, div_lt_iff₀ hd]
  constructor <;> intro h
  · have h' : ((2 * (a.num - a.floorv * ((a.den1 : Int) + 1)) : Int) : ℚ)
        < (((a.den1 : Int) + 1 : Int) : ℚ) := by exact_mod_cast h
    push_cast at h'
    nlinarith [h']
  · have h' : ((2 * (a.num - a.floorv * ((a.den1 : Int) + 1)) : Int) : ℚ)
        < (((a.den1 : Int) + 1 : Int) : ℚ) := by push_cast; nlinarith [h]
    exact_mod_cast h'

theorem PyQ.lt_rem2_iff (a : PyQ) :
    ((a.den1 : Int) + 1 < a.rem2) ↔ (1/2 < a.toRat - ⌊a.toRat⌋) := by
  have hd : (0:ℚ) < (a.den1 : ℚ) + 1 := a.den_pos
  rw [← PyQ.floorv_eq, PyQ.rem2, PyQ.toRat]
  rw [lt_sub_iff_add_lt, lt_div_iff₀ hd]
  constructor <;> intro h
  · have h' : (((a.den1 : Int) + 1 : Int) : ℚ)
        < ((2 * (a.num - a.floorv * ((a.den1 : Int) + 1)) : Int) : ℚ) := by exact_mod_cast h
    push_cast at h'
    nlinarith [h']
  · have h' : (((a.den1 : Int) + 1 : Int) : ℚ)
        < ((2 * (a.num - a.floorv * ((a.den1 : Int) + 1)) : Int) : ℚ) := by push_cast; nlinarith [h]
    exact_mod_cast h'

theorem PyQ.roundHE_eq (a : PyQ) : a.roundHE = rheQ a.toRat := by
  have h1 := a.rem2_lt_iff
  have h2 := a.lt_rem2_iff
  rw [← a.floorv_eq] at h1 h2
  rw [PyQ.roundHE, rheQ, ← a.floorv_eq]
  by_cases hc : a.rem2 < (a.den1 : Int) + 1
  · rw [if_pos hc, if_pos (h1.mp hc)]
  · rw [if_neg hc, if_neg (fun hh => hc (h1.mpr hh))]
    by_cases hc2 : (a.den1 : Int) + 1 < a.rem2
    · rw [if_pos hc2, if_pos (h2.mp hc2)]
    · rw [if_neg hc2, if_neg (fun hh => hc2 (h2.mpr hh))]

theorem PyQ.toRat_scale10 (a : PyQ) : (PyQ.mk (a.num * 10) a.den1).toRat = 10 * a.toRat := by
  simp only [PyQ.toRat]
  push_cast
  ring

theorem PyQ.toRat_round1 (a : PyQ) : a.round1.toRat = round1Q a.toRat := by
  rw [PyQ.round1, round1Q, PyQ.toRat]
  rw [show (PyQ.roundHE ⟨a.num * 10, a.den1⟩ : Int) = rheQ (10 * a.toRat) by
    rw [PyQ.roundHE_eq, PyQ.toRat_scale10]]
  norm_num

theorem jget_num_default (kvs : List (String × JValue)) (k : String) (d1 d2 : PyQ)
    (h : numlike (jget kvs k (.jnum d1)) = true) : numlike (jget kvs k (.jnum d2)) = true := by
  unfold jget at h ⊢
  cases hl : jlookup kvs k with
  | none => simp [hl, numlike]
  | some v => rw [hl] at h; simpa using h

theorem pyGet_obj (kvs : List (String × JValue)) (k : String) (d : JValue) :
    pyGet (.jobj kvs) k d = .ok (jget kvs k d) := rfl

theorem pyLt_ok_of_numlike {v : JValue} (c : PyQ) (h : numlike v = true) :
    ∃ b, pyLt v c = .ok b := by
  cases v with
  | jnum q => exact ⟨_, rfl⟩
  | jbool b => exact ⟨_, rfl⟩
  | jstr s => simp [numlike] at h
  | jnull => simp [numlike] at h
  | jarr xs => simp [numlike] at h
  | jobj kvs => simp [numlike] at h

theorem pyGtInt_ok_of_numlike {v : JValue} (n : Int) (h : numlike v = true) :
    ∃ b, pyGtInt v n = .ok b := by
  cases v with
  | jnum q => exact ⟨_, rfl⟩
  | jbool b => exact ⟨_, rfl⟩
  | jstr s => simp [numlike] at h
  | jnull => simp [numlike] at h
  | jarr xs => simp [numlike] at h
  | jobj kvs => simp [numlike] at h

theorem pyDivInt_ok_of_numlike {v : JValue} {n : Int} (hn : n ≠ 0) (h : numlike v = true) :
    ∃ q, pyDivInt v n = .ok q := by
  cases v with
  | jnum q => exact ⟨q.divInt n, by simp [pyDivInt, hn]⟩
  | jbool b => exact ⟨(PyQ.ofInt (if b then 1 else 0)).divInt n, by simp [pyDivInt, hn]⟩
  | jstr s => simp [numlike] at h
  | jnull => simp [numlike] at h
  | jarr xs => simp [numlike] at h
  | jobj kvs => simp [numlike] at h

theorem sumValuesAux_ok (svs : List (String × JValue)) (acc : PyQ)
    (h : ∀ p ∈ svs, numlike p.2 = true) :
    ∃ q, sumValuesAux svs acc = .ok q ∧
      q.toRat = acc.toRat + (svs.map (fun p => jnumVal p.2)).sum := by
  induction svs generalizing acc with
  | nil => exact ⟨acc, rfl, by simp⟩
  | cons p rest ih =>
    have hp : numlike p.2 = true := h p (List.mem_cons_self p rest)
    have hr : ∀ x ∈ rest, numlike x.2 = true := fun x hx => h x (List.mem_cons_of_mem _ hx)
    cases hv : p.2 with
    | jnum q =>
      obtain ⟨sq, hs, hval⟩ := ih (acc.add q) hr
      refine ⟨sq, by simp [sumValuesAux, hv, hs], ?_⟩
      rw [hval, PyQ.toRat_add]
      simp [jnumVal, hv]
      ring
    | jbool b =>
      obtain ⟨sq, hs, hval⟩ := ih (acc.add (PyQ.ofInt (if b then 1 else 0))) hr
      refine ⟨sq, by simp [sumValuesAux, hv, hs], ?_⟩
      rw [hval, PyQ.toRat_add, PyQ.toRat_ofInt]
      simp [jnumVal, hv]
      cases b <;> simp <;> ring
    | jstr s => rw [hv] at hp; simp [numlike] at hp
    | jnull => rw [hv] at hp; simp [numlike] at hp
    | jarr xs => rw [hv] at hp; simp [numlike] at hp
    | jobj kvs => rw [hv] at hp; simp [numlike] at hp

theorem pySumValues_ok (svs : List (String × JValue))
    (h : ∀ p ∈ svs, numlike p.2 = true) :
    ∃ q, pySumValues (.jobj svs) = .ok q ∧
      q.toRat = (svs.map (fun p => jnumVal p.2)).sum := by
  obtain ⟨q, h1, h2⟩ := sumValuesAux_ok svs (PyQ.ofInt 0) h
  refine ⟨q, by simpa [pySumValues] using h1, ?_⟩
  rw [h2, PyQ.toRat_ofInt]
  simp

theorem pyGet_error_shape {v : JValue} {k : String} {d : JValue} {e : PyExc}
    (h : pyGet v k d = .error e) : isCaught e = false := by
  cases v with
  | jobj kvs => simp [pyGet] at h
  | jnum q => injection h with h; subst h; rfl
  | jstr s => injection h with h; subst h; rfl
  | jbool b => injection h with h; subst h; rfl
  | jnull => injection h with h; subst h; rfl
  | jarr xs => injection h with h; subst h; rfl

theorem sumValuesAux_error_shape :
    ∀ (svs : List (String × JValue)) (acc : PyQ) (e : PyExc),
      sumValuesAux svs acc = .error e → isCaught e = false := by
  intro svs
  induction svs with
  | nil => intro acc e h; simp [sumValuesAux] at h
  | cons p rest ih =>
    intro acc e h
    cases hv : p.2 with
    | jnum q => rw [sumValuesAux, hv] at h; exact ih _ _ h
    | jbool b => rw [sumValuesAux, hv] at h; exact ih _ _ h
    | jstr s => rw [sumValuesAux, hv] at h; injection h with h; subst h; rfl
    | jnull => rw [sumValuesAux, hv] at h; injection h with h; subst h; rfl
    | jarr xs => rw [sumValuesAux, hv] at h; injection h with h; subst h; rfl
    | jobj kvs => rw [sumValuesAux, hv] at h; injection h with h; subst h; rfl

theorem pySumValues_error_shape {v : JValue} {e : PyExc}
    (h : pySumValues v = .error e) : isCaught e = false := by
  cases v with
  | jobj kvs => exact sumValuesAux_error_shape kvs (PyQ.ofInt 0) e h
  | jnum q => injection h with h; subst h; rfl
  | jstr s => injection h with h; subst h; rfl
  | jbool b => injection h with h; subst h; rfl
  | jnull => injection h with h; subst h; rfl
  | jarr xs => injection h with h; subst h; rfl

theorem pyLt_error_shape {v : JValue} {c : PyQ} {e : PyExc}
    (h : pyLt v c = .error e) : isCaught e = false := by
  cases v with
  | jnum q => simp [pyLt] at h
  | jbool b => simp [pyLt] at h
  | jstr s => injection h with h; subst h; rfl
  | jnull => injection h with h; subst h; rfl
  | jarr xs => injection h with h; subst h; rfl
  | jobj kvs => injection h with h; subst h; rfl

theorem pyGtInt_error_shape {v : JValue} {n : Int} {e : PyExc}
    (h : pyGtInt v n = .error e) : isCaught e = false := by
  cases v with
  | jnum q => simp [pyGtInt] at h
  | jbool b => simp [pyGtInt] at h
  | jstr s => injection h with h; subst h; rfl
  | jnull => injection h with h; subst h; rfl
  | jarr xs => injection h with h; subst h; rfl
  | jobj kvs => injection h with h; subst h; rfl

theorem pyDivInt_error_shape {v : JValue} {n : Int} {e : PyExc}
    (h : pyDivInt v n = .error e) : isCaught e = false := by
  cases v with
  | jnum q =>
    rw [pyDivInt] at h
    by_cases hn : n = 0
    · rw [if_pos hn] at h; injection h with h; subst h; rfl
    · rw [if_neg hn] at h; simp at h
  | jbool b =>
    rw [pyDivInt] at h
    by_cases hn : n = 0
    · rw [if_pos hn] at h; injection h with h; subst h; rfl
    · rw [if_neg hn] at h; simp at h
  | jstr s => injection h with h; subst h; rfl
  | jnull => injection h with h; subst h; rfl
  | jarr xs => injection h with h; subst h; rfl
  | jobj kvs => injection h with h; subst h; rfl

theorem json_loads_error_shape {s : String} {e : PyExc}
    (h : json_loads s = .error e) : isCaught e = true := by
  unfold json_loads at h
  split at h
  · split at h
    · simp at h
    · injection h with h; subst h; rfl
  · injection h with h; subst h; rfl

theorem body_ok_spec {s : String} {resp : StudentResponse} {rubric : ProblemRubric}
    {r : GradingResult} (h : parse_llm_response_body s resp rubric = .ok r) :
    ∃ kvs,
      json_loads (pySlice s (strFind s '\x7b').toNat ((strRfind s '\x7d') + 1).toNat)
        = .ok (.jobj kvs) ∧
      r.scores = jget kvs "scores" (.jobj []) ∧
      (∃ sumq, pySumValues (jget kvs "scores" (.jobj [])) = .ok sumq ∧
        r.total_score = jget kvs "total_score" (.jnum sumq)) ∧
      r.confidence = jget kvs "confidence" (.jnum ⟨1, 1⟩) ∧
      r.max_possible = rubric.total_points ∧
      ∃ conf_low, pyLt r.confidence ⟨7, 9⟩ = .ok conf_low ∧
        ((conf_low = true ∧ r.flagged_for_review = true) ∨
         (conf_low = false ∧
           pyGtInt r.total_score rubric.total_points = .ok r.flagged_for_review)) := by
  simp only [parse_llm_response_body] at h
  split at h
  · simp at h
  split at h
  · simp at h
  rename_i parsed hjson
  split at h
  · simp at h
  rename_i scores hsc
  split at h
  · simp at h
  rename_i sum_scores hsum
  split at h
  · simp at h
  rename_i total_score hts
  split at h
  · simp at h
  rename_i confidence hcf
  split at h
  · simp at h
  rename_i conf_low hlt
  split at h
  · simp at h
  rename_i flagged hfl
  split at h
  · simp at h
  rename_i ratio hdiv
  split at h
  · simp at h
  rename_i percentage hpc
  split at h
  · simp at h
  rename_i feedback hfb
  split at h
  · simp at h
  rename_i suggestions hsg
  injection h with h
  subst h
  cases parsed with
  | jnum q => simp [pyGet] at hsc
  | jstr v => simp [pyGet] at hsc
  | jbool b => simp [pyGet] at hsc
  | jnull => simp [pyGet] at hsc
  | jarr xs => simp [pyGet] at hsc
  | jobj kvs =>
    rw [pyGet_obj] at hsc hts hcf
    injection hsc with hsc
    injection hts with hts
    injection hcf with hcf
    subst hsc
    subst hts
    subst hcf
    refine ⟨kvs, hjson, rfl, ⟨sum_scores, hsum, rfl⟩, rfl, rfl, conf_low, hlt, ?_⟩
    cases hc : conf_low with
    | true =>
      rw [hc] at hfl
      injection hfl with hfl
      exact Or.inl ⟨rfl, hfl.symm⟩
    | false =>
      rw [hc] at hfl
      simp only [if_neg Bool.false_ne_true] at hfl
      exact Or.inr ⟨rfl, by rw [hfl]⟩

theorem body_error_not_caught {s : String} {resp : StudentResponse} {rubric : ProblemRubric}
    {parsed : JValue} {e : PyExc}
    (hg : ¬(strFind s '\x7b' = -1 ∨ strRfind s '\x7d' + 1 = 0))
    (hj : json_loads (pySlice s (strFind s '\x7b').toNat ((strRfind s '\x7d') + 1).toNat)
      = .ok parsed)
    (h : parse_llm_response_body s resp rubric = .error e) : isCaught e = false := by
  simp only [parse_llm_response_body] at h
  split at h
  · rename_i hguard; exact absurd hguard hg
  split at h
  · rename_i e0 heq; rw [hj] at heq; simp at heq
  rename_i parsed0 hjson
  split at h
  · rename_i e0 heq
    injection h with h
    subst h
    exact pyGet_error_shape heq
  rename_i scores hsc
  split at h
  · rename_i e0 heq
    injection h with h
    subst h
    exact pySumValues_error_shape heq
  rename_i sum_scores hsum
  split at h
  · rename_i e0 heq
    injection h with h
    subst h
    exact pyGet_error_shape heq
  rename_i total_score hts
  split at h
  · rename_i e0 heq
    injection h with h
    subst h
    exact pyGet_error_shape heq
  rename_i confidence hcf
  split at h
  · rename_i e0 heq
    injection h with h
    subst h
    exact pyLt_error_shape heq
  rename_i conf_low hlt
  split at h
  · rename_i e0 heq
    injection h with h
    subst h
    cases hc : conf_low with
    | true => rw [hc] at heq; simp at heq
    | false =>
      rw [hc] at heq
      simp only [if_neg Bool.false_ne_true] at heq
      exact pyGtInt_error_shape heq
  rename_i flagged hfl
  split at h
  · rename_i e0 heq
    injection h with h
    subst h
    exact pyDivInt_error_shape heq
  rename_i ratio hdiv
  split at h
  · rename_i e0 heq
    injection h with h
    subst h
    exact pyGet_error_shape heq
  rename_i percentage hpc
  split at h
  · rename_i e0 heq
    injection h with h
    subst h
    exact pyGet_error_shape heq
  rename_i feedback hfb
  split at h
  · rename_i e0 heq
    injection h with h
    subst h
    exact pyGet_error_shape heq
  rename_i suggestions hsg
  simp at h

theorem foldl_add_toRat (xs : List PyQ) :
    ∀ acc : PyQ, (xs.foldl PyQ.add acc).toRat = acc.toRat + (xs.map PyQ.toRat).sum := by
  induction xs with
  | nil => intro acc; simp
  | cons x rest ih =>
    intro acc
    simp only [List.foldl_cons, List.map_cons, List.sum_cons]
    rw [ih, PyQ.toRat_add]
    ring

theorem pySumList_toRat (xs : List PyQ) : (pySumList xs).toRat = (xs.map PyQ.toRat).sum := by
  rw [pySumList, foldl_add_toRat, PyQ.toRat_ofInt]
  simp

theorem pyMean_toRat (xs : List PyQ) (h : xs ≠ []) :
    (pyMean xs).toRat = meanQ (xs.map PyQ.toRat) := by
  rw [pyMean, PyQ.toRat_divNat _ _ (List.length_pos.mpr h), pySumList_toRat, meanQ]
  simp

theorem sampleVarPyQ_toRat (xs : List PyQ) (h : 1 < xs.length) :
    (sampleVarPyQ xs).toRat = sampleVarQ (xs.map PyQ.toRat) := by
  have hne : xs ≠ [] := by
    intro hh
    rw [hh] at h
    simp at h
  simp only [sampleVarPyQ]
  rw [PyQ.toRat_divNat _ _ (by omega : 0 < xs.length - 1), pySumList_toRat, sampleVarQ]
  have hmaps : (xs.map (fun x => (x.sub (pyMean xs)).mul (x.sub (pyMean xs)))).map PyQ.toRat
      = (xs.map PyQ.toRat).map (fun y => (y - meanQ (xs.map PyQ.toRat)) ^ 2) := by
    rw [List.map_map, List.map_map]
    apply List.map_congr_left
    intro x hx
    simp only [Function.comp_apply]
    rw [PyQ.toRat_mul, PyQ.toRat_sub, pyMean_toRat xs hne, pow_two]
  rw [hmaps]
  congr 1
  rw [List.length_map]
  have h1 : (1 : ℕ) ≤ xs.length := by omega
  push_cast [Nat.cast_sub h1]
  ring

theorem stdevGt_iff (xs : List PyQ) (t : PyQ) :
    stdevGt xs t = true ↔
      ((t.toRat : ℝ) <
        (if 1 < xs.length then Real.sqrt ((sampleVarQ (xs.map PyQ.toRat) : ℚ) : ℝ) else 0)) := by
  unfold stdevGt
  by_cases hlen : 1 < xs.length
  · rw [if_pos hlen, if_pos hlen]
    by_cases hneg : t.blt (PyQ.ofInt 0) = true
    · have ht : t.toRat < 0 := by
        have := (PyQ.blt_iff t (PyQ.ofInt 0)).mp hneg
        rwa [PyQ.toRat_ofInt, Int.cast_zero] at this
      simp only [hneg, Bool.true_or, true_iff]
      have h0 : (0:ℝ) ≤ Real.sqrt ((sampleVarQ (xs.map PyQ.toRat) : ℚ) : ℝ) :=
        Real.sqrt_nonneg _
      have htr : ((t.toRat : ℚ) : ℝ) < 0 := by exact_mod_cast ht
      linarith
    · have hnn : 0 ≤ t.toRat := by
        by_contra hcon
        exact hneg ((PyQ.blt_iff t (PyQ.ofInt 0)).mpr
          (by rw [PyQ.toRat_ofInt, Int.cast_zero]; exact not_le.mp hcon))
      rw [Bool.eq_false_iff.mpr hneg]
      simp only [Bool.false_or]
      rw [PyQ.blt_iff, PyQ.toRat_mul, sampleVarPyQ_toRat xs hlen]
      have hnnR : (0:ℝ) ≤ ((t.toRat : ℚ) : ℝ) := by exact_mod_cast hnn
      rw [Real.lt_sqrt hnnR]
      constructor
      · intro hlt
        have : ((t.toRat * t.toRat : ℚ) : ℝ) < ((sampleVarQ (xs.map PyQ.toRat) : ℚ) : ℝ) := by
          exact_mod_cast hlt
        calc ((t.toRat : ℚ) : ℝ) ^ 2 = ((t.toRat * t.toRat : ℚ) : ℝ) := by push_cast; ring
          _ < _ := this
      · intro hlt
        have : ((t.toRat * t.toRat : ℚ) : ℝ) < ((sampleVarQ (xs.map PyQ.toRat) : ℚ) : ℝ) := by
          calc ((t.toRat * t.toRat : ℚ) : ℝ) = ((t.toRat : ℚ) : ℝ) ^ 2 := by push_cast; ring
            _ < _ := hlt
        exact_mod_cast this
  · rw [if_neg hlen, if_neg hlen, PyQ.blt_iff, PyQ.toRat_ofInt, Int.cast_zero]
    constructor
    · intro hlt
      exact_mod_cast hlt
    · intro hlt
      exact_mod_cast hlt

/-- C5 (amended): an `execute_result` output entry carrying a plain-text
representation is summarized by the `data` branch as `PLAIN TEXT OUTPUT n`;
the source's dedicated `EXECUTION RESULT` branch is dead code — its guard
requires the `data` key whose absence the previous `elif` has already
established — so no output entry ever contributes a summary block through
it, and the output summary of the canonical `execute_result` entry is
exactly the plain-text block. -/
theorem C5_exec_branch_dead :
    (∀ i o, processOutput i o = processOutputNoExecBranch i o) ∧
      get_execution_output execResultCell = some "[PLAIN TEXT OUTPUT 1]\n2" := by
  constructor
  · intro i o
    rcases o with ⟨ot, t, d⟩
    cases t with
    | some td => rfl
    | none =>
      cases d with
      | some dd => rfl
      | none => simp [processOutput, processOutputNoExecBranch]
  · rfl

/-- C5 counterexample: the claim says an `execute_result` output with a
plain-text representation emits an `EXECUTION RESULT n` block in addition
to the earlier rules' blocks; on the code, the summary of such a cell is
one `PLAIN TEXT OUTPUT` block and contains no `EXECUTION RESULT` label at
all. -/
theorem C5_counterexample :
    get_execution_output execResultCell = some "[PLAIN TEXT OUTPUT 1]\n2" ∧
      (get_execution_output execResultCell).map
        (fun out => containsSub out "EXECUTION RESULT") = some false :=
  ⟨rfl, rfl⟩

/-- C6 (amended): whenever the rubric file for an assignment exists,
`load_assignment_rubric` ignores its content entirely and returns the
fixed one-problem rubric hard-coded in `_parse_txt_rubric` (`part_1`,
30 points, criteria `content_quality`/`implementation`/`presentation`
worth 15/10/5), for every file content and assignment id. -/
theorem C6_fixed_rubric (content aid : String) :
    load_assignment_rubric content aid =
      [("part_1",
        { problem_id := "part_1"
          total_points := 30
          criteria :=
            [⟨"content_quality", 15, "Quality and depth of response",
              "Clear reasoning and understanding demonstrated"⟩,
             ⟨"implementation", 10, "Code quality and correctness",
              "Working code with proper structure"⟩,
             ⟨"presentation", 5, "Clear presentation and communication",
              "Well-organized and clearly written"⟩]
          problem_statement := "General homework problem"
          expected_response_type := "mixed"
          context := some "Student should provide thoughtful analysis" })] := rfl

/-- C6 counterexample: a rubric file describing two problems with 50 and 7
total points is loaded as the fixed single 30-point `part_1` rubric — not
one `ProblemRubric` per file entry carrying that entry's `total_points`. -/
theorem C6_counterexample :
    (load_assignment_rubric
        "Problem: alpha\nTotal Points: 50\n\nProblem: beta\nTotal Points: 7\n" "hw1").length
        = 1 ∧
      (load_assignment_rubric
        "Problem: alpha\nTotal Points: 50\n\nProblem: beta\nTotal Points: 7\n" "hw1").map
        (fun p => p.2.total_points) = [30] :=
  ⟨rfl, rfl⟩

/-- C7 (amended): the two recognized explicit answer tags are the
space-separated strings `'code answer'` and `'text answer'` (not the
hyphenated spellings); for every cell whose tag set contains one of them,
`is_answer_cell` returns true immediately, regardless of the cell's kind,
content, or content length. -/
theorem C7_tag_overrides (cell : Cell)
    (h : "code answer" ∈ cell.tags ∨ "text answer" ∈ cell.tags) :
    is_answer_cell cell = true := by
  have hb : (cell.tags.contains "code answer" || cell.tags.contains "text answer") = true := by
    rcases h with h | h
    · have h1 : cell.tags.contains "code answer" = true := List.elem_eq_true_of_mem h
      rw [h1]
      rfl
    · have h1 : cell.tags.contains "text answer" = true := List.elem_eq_true_of_mem h
      rw [h1]
      simp
  unfold is_answer_cell
  rw [hb]
  rfl

/-- C7 witness: a cell tagged `'text answer'` with empty markdown source is
classified as an answer cell by the theorem. -/
theorem C7_tag_overrides_witness :
    ("code answer" ∈ spaceTaggedCell.tags ∨ "text answer" ∈ spaceTaggedCell.tags) ∧
      is_answer_cell spaceTaggedCell = true :=
  ⟨Or.inr (by decide), C7_tag_overrides spaceTaggedCell (Or.inr (by decide))⟩

/-- C7 counterexample: a cell tagged with the claim's hyphenated tag
`"code-answer"` (and empty source) is not recognized — `is_answer_cell`
returns false, against the claim's "returns true immediately". -/
theorem C7_counterexample :
    "code-answer" ∈ hyphenTaggedCell.tags ∧ is_answer_cell hyphenTaggedCell = false :=
  ⟨by decide, rfl⟩

/-- C8 (confirmed): when an output entry's `data` carries at least two
image representations, only the first format in the precedence order PNG,
JPEG, SVG is processed: the image loop yields exactly the one metadata
block of that format (the `break` prevents a second format from being
parsed), and the entry's blocks are the plain-text block, that single
image block, and the HTML block. -/
theorem C8_first_image_format (i : Nat) (o : Output) (d : List (String × PyStr))
    (ht : o.text = none) (hd : o.data = some d)
    (h2 : 2 ≤ (if dhas d "image/png" then 1 else 0) + (if dhas d "image/jpeg" then 1 else 0)
        + (if dhas d "image/svg+xml" then 1 else 0)) :
    firstImageBlock i d =
      [imageInfo i
        (if dhas d "image/png" then "image/png"
         else if dhas d "image/jpeg" then "image/jpeg" else "image/svg+xml") d] ∧
    processOutput i o =
      plainTextBlock i d ++
        [imageInfo i
          (if dhas d "image/png" then "image/png"
           else if dhas d "image/jpeg" then "image/jpeg" else "image/svg+xml") d] ++
        htmlBlock i d := by
  have h1 : firstImageBlock i d =
      [imageInfo i
        (if dhas d "image/png" then "image/png"
         else if dhas d "image/jpeg" then "image/jpeg" else "image/svg+xml") d] := by
    by_cases hp : dhas d "image/png" = true
    · simp [firstImageBlock, imageFormats, imageLoop, hp]
    · by_cases hj : dhas d "image/jpeg" = true
      · simp [firstImageBlock, imageFormats, imageLoop, hp, hj]
      · have hs : dhas d "image/svg+xml" = true := by
          by_contra hsvg
          simp [hp, hj, hsvg] at h2
        simp [firstImageBlock, imageFormats, imageLoop, hp, hj, hs]
  refine ⟨h1, ?_⟩
  rcases o with ⟨ot, t, dd⟩
  simp only at ht hd
  subst ht
  subst hd
  simp [processOutput, h1]

/-- C8 witness: an entry carrying both PNG and JPEG data produces exactly
the PNG metadata block. -/
theorem C8_first_image_format_witness :
    (Output.mk (some "display_data") none
        (some [("image/png", .s "AAAA"), ("image/jpeg", .s "BB")])).text = none ∧
    (2 ≤ (if dhas [("image/png", PyStr.s "AAAA"), ("image/jpeg", PyStr.s "BB")] "image/png"
            then 1 else 0)
        + (if dhas [("image/png", PyStr.s "AAAA"), ("image/jpeg", PyStr.s "BB")] "image/jpeg"
            then 1 else 0)
        + (if dhas [("image/png", PyStr.s "AAAA"), ("image/jpeg", PyStr.s "BB")] "image/svg+xml"
            then 1 else 0)) ∧
    firstImageBlock 0 [("image/png", PyStr.s "AAAA"), ("image/jpeg", PyStr.s "BB")] =
      [imageInfo 0
        (if dhas [("image/png", PyStr.s "AAAA"), ("image/jpeg", PyStr.s "BB")] "image/png"
          then "image/png"
         else if dhas [("image/png", PyStr.s "AAAA"), ("image/jpeg", PyStr.s "BB")] "image/jpeg"
          then "image/jpeg" else "image/svg+xml")
        [("image/png", PyStr.s "AAAA"), ("image/jpeg", PyStr.s "BB")]] :=
  ⟨rfl, by decide,
    (C8_first_image_format 0
      (Output.mk (some "display_data") none
        (some [("image/png", .s "AAAA"), ("image/jpeg", .s "BB")]))
      [("image/png", PyStr.s "AAAA"), ("image/jpeg", PyStr.s "BB")] rfl rfl (by decide)).1⟩

/-- C10 (confirmed): every result emitted by the Multi-Run Aggregator has
an empty per-criterion `scores` mapping — `aggregate_results` builds each
averaged `GradingResult` with `scores = {}`, discarding the runs'
criterion-level scores. -/
theorem C10_empty_scores (runs : List (List RunResult)) (t : PyQ) (r : GradingResult)
    (hr : r ∈ aggregate_results runs t) : r.scores = .jobj [] := by
  simp only [aggregate_results, List.mem_map] at hr
  obtain ⟨g, hg, rfl⟩ := hr
  rfl

/-- C10 witness: the aggregation of one 80-point run produces a result in
the output list, and its `scores` mapping is empty. -/
theorem C10_empty_scores_witness :
    (GradingResult.mk "p1" "s1" (.jobj []) (.jnum ⟨800, 9⟩) 100 (.jnum ⟨800, 9⟩)
        (.jstr "fb") (.jarr []) (.jnum ⟨90, 99⟩) false)
      ∈ aggregate_results [[runOf 80]] (PyQ.ofInt 15) ∧
    (GradingResult.mk "p1" "s1" (.jobj []) (.jnum ⟨800, 9⟩) 100 (.jnum ⟨800, 9⟩)
        (.jstr "fb") (.jarr []) (.jnum ⟨90, 99⟩) false).scores = .jobj [] := by
  have hmem : (GradingResult.mk "p1" "s1" (.jobj []) (.jnum ⟨800, 9⟩) 100 (.jnum ⟨800, 9⟩)
      (.jstr "fb") (.jarr []) (.jnum ⟨90, 99⟩) false)
      ∈ aggregate_results [[runOf 80]] (PyQ.ofInt 15) := by
    have heq : aggregate_results [[runOf 80]] (PyQ.ofInt 15) =
        [GradingResult.mk "p1" "s1" (.jobj []) (.jnum ⟨800, 9⟩) 100 (.jnum ⟨800, 9⟩)
          (.jstr "fb") (.jarr []) (.jnum ⟨90, 99⟩) false] := rfl
    rw [heq]
    exact List.mem_singleton.mpr rfl
  exact ⟨hmem, C10_empty_scores [[runOf 80]] (PyQ.ofInt 15) _ hmem⟩

theorem json_loads_error_msg {s : String} {e : PyExc} (h : json_loads s = .error e) :
    ∃ m, e = .jsonDecodeError m := by
  unfold json_loads at h
  split at h
  · split at h
    · simp at h
    · injection h with h
      exact ⟨_, h.symm⟩
  · injection h with h
    exact ⟨_, h.symm⟩

/-- C2 (confirmed): every `GradingResult` the Completion Parser returns
with numeric `confidence` and `total_score` is flagged for review exactly
when its confidence is strictly below `0.7` or its total score strictly
exceeds the rubric's `total_points`; in particular a completion with
`confidence = 0.69` is flagged and one with `confidence = 0.70` and
`total_score` within rubric bounds is not. -/
theorem C2_flag_iff :
    (∀ (s : String) (resp : StudentResponse) (rubric : ProblemRubric) (r : GradingResult)
        (c ts : PyQ),
      parse_llm_response s resp rubric = .ok r →
      r.confidence = JValue.jnum c → r.total_score = JValue.jnum ts →
      (r.flagged_for_review = true ↔
        (c.toRat < 7/10 ∨ (rubric.total_points : ℚ) < ts.toRat))) ∧
    (parse_llm_response "\x7b\"scores\": \x7b\"a\": 5\x7d, \"confidence\": 0.69\x7d"
        respA rubricA).toOption.map (fun r => r.flagged_for_review) = some true ∧
    (parse_llm_response
        "\x7b\"scores\": \x7b\"a\": 5\x7d, \"total_score\": 5, \"confidence\": 0.70\x7d"
        respA rubricA).toOption.map (fun r => r.flagged_for_review) = some false := by
  refine ⟨?_, rfl, rfl⟩
  intro s resp rubric r c ts hok hc hts
  have h79 : (⟨7, 9⟩ : PyQ).toRat = 7/10 := by norm_num [PyQ.toRat]
  cases hbody : parse_llm_response_body s resp rubric with
  | error e =>
    rw [parse_llm_response, hbody] at hok
    dsimp only at hok
    by_cases hcaught : isCaught e = true
    · rw [if_pos hcaught] at hok
      injection hok with hok
      subst hok
      simp only [create_error_result] at hc ⊢
      injection hc with hc
      constructor
      · intro _
        left
        rw [← hc, PyQ.toRat_ofInt]
        norm_num
      · intro _
        trivial
    · rw [if_neg hcaught] at hok
      simp at hok
  | ok rb =>
    rw [parse_llm_response, hbody] at hok
    injection hok with hok
    subst hok
    obtain ⟨kvs, hjson, hsc, ⟨sumq, hsum, hts2⟩, hcf, hmax, conf_low, hlt, hdisj⟩ :=
      body_ok_spec hbody
    rw [hc] at hlt
    simp only [pyLt] at hlt
    injection hlt with hlt
    rcases hdisj with ⟨hcl, hfl⟩ | ⟨hcl, hfl⟩
    · rw [hfl]
      constructor
      · intro _
        left
        have hblt : c.blt ⟨7, 9⟩ = true := by rw [hlt, hcl]
        have := (PyQ.blt_iff c ⟨7, 9⟩).mp hblt
        rwa [h79] at this
      · intro _
        rfl
    · rw [hts] at hfl
      simp only [pyGtInt] at hfl
      injection hfl with hfl
      have hbltc : c.blt ⟨7, 9⟩ = false := by rw [hlt, hcl]
      have hnotc : ¬ c.toRat < 7/10 := by
        intro hcon
        have : c.blt ⟨7, 9⟩ = true := (PyQ.blt_iff c ⟨7, 9⟩).mpr (by rwa [h79])
        rw [this] at hbltc
        simp at hbltc
      constructor
      · intro hf
        right
        have : (PyQ.ofInt rubric.total_points).blt ts = true := by rw [hfl, hf]
        have h2 := (PyQ.blt_iff _ _).mp this
        rwa [PyQ.toRat_ofInt] at h2
      · intro hor
        rcases hor with hor | hor
        · exact absurd hor hnotc
        · rw [← hfl]
          exact (PyQ.blt_iff _ _).mpr (by rwa [PyQ.toRat_ofInt])

/-- C2 witness: the theorem applied to the `confidence = 0.69` completion:
its result is flagged because `0.69 < 0.7`. -/
theorem C2_flag_iff_witness :
    parse_llm_response "\x7b\"scores\": \x7b\"a\": 5\x7d, \"confidence\": 0.69\x7d" respA rubricA
      = .ok ⟨"part_1", "", .jobj [("a", .jnum ⟨5, 0⟩)], .jnum ⟨5, 0⟩, 10, .jnum ⟨500, 9⟩,
          .jstr "No feedback provided", .jarr [], .jnum ⟨69, 99⟩, true⟩ ∧
    (true = true ↔ ((⟨69, 99⟩ : PyQ).toRat < 7/10 ∨ ((10 : Int) : ℚ) < (⟨5, 0⟩ : PyQ).toRat)) :=
  ⟨rfl, C2_flag_iff.1 "\x7b\"scores\": \x7b\"a\": 5\x7d, \"confidence\": 0.69\x7d" respA rubricA
    ⟨"part_1", "", .jobj [("a", .jnum ⟨5, 0⟩)], .jnum ⟨5, 0⟩, 10, .jnum ⟨500, 9⟩,
      .jstr "No feedback provided", .jarr [], .jnum ⟨69, 99⟩, true⟩
    ⟨69, 99⟩ ⟨5, 0⟩ rfl rfl rfl⟩

/-- C3 (confirmed): a well-formed JSON completion that carries a `scores`
map (with numeric values) but omits `total_score` parses to a result whose
`total_score` is the sum of the `scores` map's values. -/
theorem C3_total_is_sum (s : String) (resp : StudentResponse) (rubric : ProblemRubric)
    (r : GradingResult) (kvs svs : List (String × JValue))
    (hok : parse_llm_response s resp rubric = .ok r)
    (hguard : ¬(strFind s '\x7b' = -1 ∨ strRfind s '\x7d' + 1 = 0))
    (hjson : json_loads (pySlice s (strFind s '\x7b').toNat ((strRfind s '\x7d') + 1).toNat)
      = .ok (.jobj kvs))
    (hscores : jlookup kvs "scores" = some (.jobj svs))
    (hnototal : jlookup kvs "total_score" = none)
    (hnums : ∀ p ∈ svs, numlike p.2 = true) :
    ∃ q, r.total_score = JValue.jnum q ∧ q.toRat = (svs.map (fun p => jnumVal p.2)).sum := by
  cases hbody : parse_llm_response_body s resp rubric with
  | error e =>
    have hnc := body_error_not_caught hguard hjson hbody
    rw [parse_llm_response, hbody] at hok
    dsimp only at hok
    rw [if_neg (by rw [hnc]; exact Bool.false_ne_true)] at hok
    simp at hok
  | ok rb =>
    rw [parse_llm_response, hbody] at hok
    injection hok with hok
    subst hok
    obtain ⟨kvs2, hjson2, hsc, ⟨sumq, hsum, hts⟩, hcf, hmax, rest⟩ := body_ok_spec hbody
    rw [hjson] at hjson2
    injection hjson2 with hjson2
    injection hjson2 with hjson2
    subst hjson2
    rw [jget, hscores, Option.getD_some] at hsum
    obtain ⟨q2, hq2, hval⟩ := pySumValues_ok svs hnums
    rw [hq2] at hsum
    injection hsum with hsum
    subst hsum
    rw [jget, hnototal, Option.getD_none] at hts
    exact ⟨q2, hts, hval⟩

/-- C3 witness: the completion `{"scores": {"a": 5, "b": 2.5}}` (no
`total_score`) parses to a result with `total_score = 7.5 = 5 + 2.5`. -/
theorem C3_total_is_sum_witness :
    parse_llm_response "\x7b\"scores\": \x7b\"a\": 5, \"b\": 2.5\x7d\x7d" respA rubricA
      = .ok ⟨"part_1", "", .jobj [("a", .jnum ⟨5, 0⟩), ("b", .jnum ⟨25, 9⟩)], .jnum ⟨75, 9⟩, 10,
          .jnum ⟨7500, 99⟩, .jstr "No feedback provided", .jarr [], .jnum ⟨1, 1⟩, true⟩ ∧
    (∃ q, (JValue.jnum (⟨75, 9⟩ : PyQ)) = JValue.jnum q ∧
      q.toRat = ([("a", JValue.jnum (⟨5, 0⟩ : PyQ)), ("b", JValue.jnum (⟨25, 9⟩ : PyQ))].map
        (fun p => jnumVal p.2)).sum) := by
  refine ⟨rfl, ?_⟩
  have h := C3_total_is_sum "\x7b\"scores\": \x7b\"a\": 5, \"b\": 2.5\x7d\x7d" respA rubricA
    ⟨"part_1", "", .jobj [("a", .jnum ⟨5, 0⟩), ("b", .jnum ⟨25, 9⟩)], .jnum ⟨75, 9⟩, 10,
      .jnum ⟨7500, 99⟩, .jstr "No feedback provided", .jarr [], .jnum ⟨1, 1⟩, true⟩
    [("scores", .jobj [("a", .jnum ⟨5, 0⟩), ("b", .jnum ⟨25, 9⟩)])]
    [("a", .jnum ⟨5, 0⟩), ("b", .jnum ⟨25, 9⟩)]
    rfl (by decide) rfl rfl rfl (by decide)
  exact h

/-- C4 (amended): a completion with no JSON braces or an invalid JSON
slice is recovered into exactly the zero-score fallback: one zero score
per rubric criterion, total score 0, percentage 0, confidence 0.0,
flagged, feedback embedding the error message, and the single manual-review
suggestion.  (A well-formed completion with missing keys is not a
malformation: the parser fills each missing key with its default instead —
see the counterexample.) -/
theorem C4_malformed_fallback (s : String) (resp : StudentResponse) (rubric : ProblemRubric)
    (hmal : malformedCompletion s = true) :
    ∃ m, parse_llm_response s resp rubric =
      .ok { problem_id := resp.problem_id
            student_id := ""
            scores := .jobj (rubric.criteria.map
              (fun crit => (crit.name, JValue.jnum (PyQ.ofInt 0))))
            total_score := .jnum (PyQ.ofInt 0)
            max_possible := rubric.total_points
            percentage := .jnum (PyQ.ofInt 0)
            feedback := .jstr ("Grading error occurred: Parse error: " ++ m)
            suggestions := .jarr [.jstr "Please review this submission manually"]
            confidence := .jnum (PyQ.ofInt 0)
            flagged_for_review := true } := by
  rw [malformedCompletion] at hmal
  by_cases hg : strFind s '\x7b' = -1 ∨ strRfind s '\x7d' + 1 = 0
  · refine ⟨"No JSON found in LLM response", ?_⟩
    have hbody : parse_llm_response_body s resp rubric
        = .error (.valueError "No JSON found in LLM response") := by
      simp only [parse_llm_response_body]
      rw [if_pos hg]
    rw [parse_llm_response, hbody]
    rfl
  · rw [if_neg hg] at hmal
    cases hj : json_loads (pySlice s (strFind s '\x7b').toNat ((strRfind s '\x7d') + 1).toNat)
      with
    | ok v =>
      rw [hj] at hmal
      simp at hmal
    | error e =>
      obtain ⟨m, rfl⟩ := json_loads_error_msg hj
      refine ⟨m, ?_⟩
      have hbody : parse_llm_response_body s resp rubric = .error (.jsonDecodeError m) := by
        simp only [parse_llm_response_body]
        rw [if_neg hg, hj]
      rw [parse_llm_response, hbody]
      rfl

/-- C4 witness: the braceless completion `"no json here"` is malformed and
yields the fallback result with the embedded parse-error message. -/
theorem C4_malformed_fallback_witness :
    malformedCompletion "no json here" = true ∧
      ∃ m, parse_llm_response "no json here" respA rubricA =
        .ok { problem_id := respA.problem_id
              student_id := ""
              scores := .jobj (rubricA.criteria.map
                (fun crit => (crit.name, JValue.jnum (PyQ.ofInt 0))))
              total_score := .jnum (PyQ.ofInt 0)
              max_possible := rubricA.total_points
              percentage := .jnum (PyQ.ofInt 0)
              feedback := .jstr ("Grading error occurred: Parse error: " ++ m)
              suggestions := .jarr [.jstr "Please review this submission manually"]
              confidence := .jnum (PyQ.ofInt 0)
              flagged_for_review := true } :=
  ⟨rfl, C4_malformed_fallback "no json here" respA rubricA rfl⟩

/-- C4 counterexample: the completion `"{}"` is valid JSON with every
expected key missing, yet the parser does not return the fallback: the
result keeps the defaults — confidence `0.5` (not `0.0`), an empty
suggestion list (not the single manual-review suggestion), feedback
`"No feedback provided"` and an empty scores map (not one zero per rubric
criterion — `rubricA` has one criterion). -/
theorem C4_counterexample :
    parse_llm_response "\x7b\x7d" respA rubricA
      = .ok ⟨"part_1", "", .jobj [], .jnum ⟨0, 0⟩, 10, .jnum ⟨0, 9⟩,
          .jstr "No feedback provided", .jarr [], .jnum ⟨1, 1⟩, true⟩ ∧
    rubricA.criteria.length = 1 ∧
    JValue.jnum (⟨1, 1⟩ : PyQ) ≠ JValue.jnum (PyQ.ofInt 0) ∧
    JValue.jarr ([] : List JValue)
      ≠ JValue.jarr [JValue.jstr "Please review this submission manually"] :=
  ⟨rfl, rfl, by simp [PyQ.ofInt], by simp⟩

/-- C1 (amended): `_parse_llm_response` returns a `GradingResult` for
every completion, provided the rubric's `total_points` is nonzero and,
when the extracted JSON parses, its `scores` values and its `total_score`
and `confidence` entries are numeric.  (Outside these conditions a
`TypeError`/`AttributeError`/`ZeroDivisionError` escapes the method's
`except (json.JSONDecodeError, KeyError, ValueError)` clause — see the
counterexample — and is only caught one level up by `grade_response`.) -/
theorem C1_well_typed_no_raise (s : String) (resp : StudentResponse) (rubric : ProblemRubric)
    (htp : rubric.total_points ≠ 0) (hwt : wellTypedCompletion s = true) :
    ∃ r, parse_llm_response s resp rubric = .ok r := by
  by_cases hg : strFind s '\x7b' = -1 ∨ strRfind s '\x7d' + 1 = 0
  · have hbody : parse_llm_response_body s resp rubric
        = .error (.valueError "No JSON found in LLM response") := by
      simp only [parse_llm_response_body]
      rw [if_pos hg]
    refine ⟨create_error_result resp rubric "Parse error: No JSON found in LLM response", ?_⟩
    rw [parse_llm_response, hbody]
    rfl
  · cases hj : json_loads (pySlice s (strFind s '\x7b').toNat ((strRfind s '\x7d') + 1).toNat)
      with
    | error e =>
      obtain ⟨m, rfl⟩ := json_loads_error_msg hj
      have hbody : parse_llm_response_body s resp rubric = .error (.jsonDecodeError m) := by
        simp only [parse_llm_response_body]
        rw [if_neg hg, hj]
      refine ⟨create_error_result resp rubric ("Parse error: " ++ m), ?_⟩
      rw [parse_llm_response, hbody]
      rfl
    | ok parsed =>
      rw [wellTypedCompletion, if_neg hg, hj] at hwt
      cases parsed with
      | jnum q => simp [numSafe] at hwt
      | jstr v => simp [numSafe] at hwt
      | jbool b => simp [numSafe] at hwt
      | jnull => simp [numSafe] at hwt
      | jarr xs => simp [numSafe] at hwt
      | jobj kvs =>
        simp only [numSafe, Bool.and_eq_true] at hwt
        obtain ⟨⟨hsc, htsn⟩, hcfn⟩ := hwt
        cases hbody : parse_llm_response_body s resp rubric with
        | ok rb => exact ⟨rb, by rw [parse_llm_response, hbody]⟩
        | error e =>
          exfalso
          cases hscv : jget kvs "scores" (.jobj []) with
          | jnum q => rw [hscv] at hsc; simp at hsc
          | jstr v => rw [hscv] at hsc; simp at hsc
          | jbool b => rw [hscv] at hsc; simp at hsc
          | jnull => rw [hscv] at hsc; simp at hsc
          | jarr xs => rw [hscv] at hsc; simp at hsc
          | jobj svs =>
            rw [hscv] at hsc
            obtain ⟨sumq, hsum, hsval⟩ := pySumValues_ok svs (by simpa using hsc)
            have hts2 : numlike (jget kvs "total_score" (.jnum sumq)) = true :=
              jget_num_default kvs "total_score" (PyQ.ofInt 0) sumq htsn
            obtain ⟨cb, hlt⟩ := pyLt_ok_of_numlike ⟨7, 9⟩ hcfn
            obtain ⟨gb, hgt⟩ := pyGtInt_ok_of_numlike rubric.total_points hts2
            obtain ⟨dq, hdiv⟩ := pyDivInt_ok_of_numlike htp hts2
            simp only [parse_llm_response_body] at hbody
            split at hbody
            · rename_i hguard
              exact hg hguard
            split at hbody
            · rename_i e0 heq
              rw [hj] at heq
              simp at heq
            rename_i parsed0 hjeq
            rw [hj] at hjeq
            injection hjeq with hjeq
            subst hjeq
            split at hbody
            · rename_i e0 heq
              rw [pyGet_obj] at heq
              simp at heq
            rename_i scores0 hsceq
            rw [pyGet_obj] at hsceq
            injection hsceq with hsceq
            subst hsceq
            split at hbody
            · rename_i e0 heq
              rw [hscv, hsum] at heq
              simp at heq
            rename_i sum0 hsumeq
            rw [hscv, hsum] at hsumeq
            injection hsumeq with hsumeq
            subst hsumeq
            split at hbody
            · rename_i e0 heq
              rw [pyGet_obj] at heq
              simp at heq
            rename_i ts0 htseq
            rw [pyGet_obj] at htseq
            injection htseq with htseq
            subst htseq
            split at hbody
            · rename_i e0 heq
              rw [pyGet_obj] at heq
              simp at heq
            rename_i cf0 hcfeq
            rw [pyGet_obj] at hcfeq
            injection hcfeq with hcfeq
            subst hcfeq
            split at hbody
            · rename_i e0 heq
              rw [hlt] at heq
              simp at heq
            rename_i cl0 hlteq
            split at hbody
            · rename_i e0 heq
              cases hcl : cl0 with
              | true => rw [hcl] at heq; simp at heq
              | false =>
                rw [hcl] at heq
                simp only [if_neg Bool.false_ne_true] at heq
                rw [hgt] at heq
                simp at heq
            rename_i fl0 hfleq
            split at hbody
            · rename_i e0 heq
              rw [hdiv] at heq
              simp at heq
            rename_i rt0 hdiveq
            split at hbody
            · rename_i e0 heq
              rw [pyGet_obj] at heq
              simp at heq
            rename_i pc0 hpceq
            split at hbody
            · rename_i e0 heq
              rw [pyGet_obj] at heq
              simp at heq
            rename_i fb0 hfbeq
            split at hbody
            · rename_i e0 heq
              rw [pyGet_obj] at heq
              simp at heq
            rename_i sg0 hsgeq
            simp at hbody

/-- C1 witness: a rubric with ten points and a completion whose `scores`
values and `confidence` are numeric satisfy the theorem's hypotheses, and
parsing returns a result. -/
theorem C1_well_typed_no_raise_witness :
    (rubricA.total_points ≠ 0 ∧
      wellTypedCompletion "\x7b\"scores\": \x7b\"a\": 1\x7d, \"confidence\": 0.9\x7d" = true) ∧
    ∃ r, parse_llm_response "\x7b\"scores\": \x7b\"a\": 1\x7d, \"confidence\": 0.9\x7d"
      respA rubricA = .ok r :=
  ⟨⟨by decide, rfl⟩,
    C1_well_typed_no_raise "\x7b\"scores\": \x7b\"a\": 1\x7d, \"confidence\": 0.9\x7d"
      respA rubricA (by decide) rfl⟩

/-- C1 counterexample: with a rubric whose `total_points` is `0`, a
perfectly well-formed completion makes `_parse_llm_response` raise
`ZeroDivisionError` (the eagerly evaluated default argument
`total_score / rubric.total_points * 100` divides by zero, and
`ZeroDivisionError` is not in the `except` tuple) — the parser does not
return a `GradingResult`, contradicting the claim's "never raises,
including rubrics with total_points equal to zero". -/
theorem C1_counterexample :
    rubricZero.total_points = 0 ∧
      parse_llm_response "\x7b\"scores\": \x7b\"a\": 1\x7d\x7d" respA rubricZero
        = .error .zeroDivisionError :=
  ⟨rfl, rfl⟩

/-- C9 (amended): for every group of per-run results, the aggregated
result's `total_score` is the arithmetic mean of the run scores rounded to
one decimal place (Python's `round(mean, 1)`, half to even — not the exact
mean, see the counterexample), and it is flagged for review exactly when
the sample standard deviation of the scores (0 for a single run) exceeds
the variance threshold or the mean confidence is below `0.7`.  The claim's
examples hold: scores [80, 82, 84] with confidences 0.9 and threshold 15
give `total_score = 82.0` and no flag, while [60, 90, 95] is flagged. -/
theorem C9_aggregate (g : GroupData) (t : PyQ)
    (hs : g.scores ≠ []) (hc : g.confidences ≠ []) :
    ((∃ q, (mkAveraged g t).total_score = JValue.jnum q ∧
        q.toRat = round1Q (meanQ (g.scores.map PyQ.toRat))) ∧
      ((mkAveraged g t).flagged_for_review = true ↔
        (((t.toRat : ℚ) : ℝ) <
            (if 1 < g.scores.length then
              Real.sqrt ((sampleVarQ (g.scores.map PyQ.toRat) : ℚ) : ℝ) else 0) ∨
          meanQ (g.confidences.map PyQ.toRat) < 7/10))) ∧
    (aggregate_results [[runOf 80], [runOf 82], [runOf 84]] (PyQ.ofInt 15)).map
      (fun r => (r.total_score, r.flagged_for_review)) = [(JValue.jnum ⟨820, 9⟩, false)] ∧
    (aggregate_results [[runOf 60], [runOf 90], [runOf 95]] (PyQ.ofInt 15)).map
      (fun r => r.flagged_for_review) = [true] := by
  refine ⟨⟨?_, ?_⟩, rfl, rfl⟩
  · refine ⟨(pyMean g.scores).round1, rfl, ?_⟩
    rw [PyQ.toRat_round1, pyMean_toRat g.scores hs]
  · have hflag : (mkAveraged g t).flagged_for_review
        = (stdevGt g.scores t || (pyMean g.confidences).blt ⟨7, 9⟩) := rfl
    have h79 : (⟨7, 9⟩ : PyQ).toRat = 7/10 := by norm_num [PyQ.toRat]
    rw [hflag, Bool.or_eq_true, stdevGt_iff, PyQ.blt_iff, pyMean_toRat g.confidences hc, h79]

/-- C9 witness: the theorem applied to the [80, 82, 84] example group with
threshold 15. -/
theorem C9_aggregate_witness :
    (c9group.scores ≠ [] ∧ c9group.confidences ≠ []) ∧
    ((∃ q, (mkAveraged c9group (PyQ.ofInt 15)).total_score = JValue.jnum q ∧
        q.toRat = round1Q (meanQ (c9group.scores.map PyQ.toRat))) ∧
      ((mkAveraged c9group (PyQ.ofInt 15)).flagged_for_review = true ↔
        ((((PyQ.ofInt 15).toRat : ℚ) : ℝ) <
            (if 1 < c9group.scores.length then
              Real.sqrt ((sampleVarQ (c9group.scores.map PyQ.toRat) : ℚ) : ℝ) else 0) ∨
          meanQ (c9group.confidences.map PyQ.toRat) < 7/10))) :=
  ⟨⟨by decide, by decide⟩,
    (C9_aggregate c9group (PyQ.ofInt 15) (by decide) (by decide)).1⟩

/-- C9 counterexample: the claim says the aggregated `total_score` is the
arithmetic mean of the run scores; for runs scoring 0, 0 and 1 the code
produces `round(1/3, 1) = 0.3`, which is not the mean `1/3`. -/
theorem C9_counterexample :
    (aggregate_results [[runOf 0], [runOf 0], [runOf 1]] (PyQ.ofInt 15)).map
      (fun r => r.total_score) = [JValue.jnum ⟨3, 9⟩] ∧
    (⟨3, 9⟩ : PyQ).toRat
      ≠ meanQ (([⟨0, 0⟩, ⟨0, 0⟩, ⟨1, 0⟩] : List PyQ).map PyQ.toRat) := by
  refine ⟨rfl, ?_⟩
  simp [PyQ.toRat, meanQ]
  norm_num
